import Mathlib

/-!
Verification development for the CodeForge data-model validation and
generation pipeline.  The TypeScript sources are embedded shallowly:
JavaScript objects become ordered association lists wrapped in a `Json`
type, optional fields become `Option`, JS truthiness is made explicit,
and every validator/generator is a pure Lean function mirroring the
source control flow.
-/

set_option maxRecDepth 10000

/-- A JSON-like value modelling JavaScript runtime values.  JS objects are
ordered field lists (insertion order); the `undefined` value models JS `undefined` stored in
an object literal (e.g. `description: dataType.description` when the
description is absent). -/
inductive Json where
  | null
  | undefined
  | bool (b : Bool)
  | num (n : Rat)
  | str (s : String)
  | arr (elems : List Json)
  | obj (fields : List (String × Json))
deriving Repr

/-- Assignment `o[k] = v` on a JS object: overwrite in place if the key
exists (keeping its position), otherwise append. -/
def Json.setFields : List (String × Json) → String → Json → List (String × Json)
  | [], k, v => [(k, v)]
  | (k', v') :: rest, k, v =>
      if k' = k then (k', v) :: rest else (k', v') :: Json.setFields rest k v

def Json.setKey : Json → String → Json → Json
  | .obj fs, k, v => .obj (Json.setFields fs k v)
  | j, _, _ => j

def Json.lookupFields : List (String × Json) → String → Option Json
  | [], _ => none
  | (k', v') :: rest, k => if k' = k then some v' else Json.lookupFields rest k

/-- Property read `o[k]`, `none` when the key is absent. -/
def Json.getKey : Json → String → Option Json
  | .obj fs, k => Json.lookupFields fs k
  | _, _ => none

/-- The keys of a JS object in insertion order. -/
def Json.keys : Json → List String
  | .obj fs => fs.map Prod.fst
  | _ => []

/-- Truthiness of an optional JS string: `undefined` and `""` are falsy. -/
def strTruthy : Option String → Bool
  | some s => !s.isEmpty
  | none => false

/-- Truthiness of an optional JS number: `undefined` and `0` are falsy. -/
def intTruthy : Option Int → Bool
  | some n => n != 0
  | none => false

/-- JS `x || y` on an optional string (`dataType.format || 'date-time'`). -/
def strOrElse (o : Option String) (d : String) : String :=
  match o with
  | some s => if s.isEmpty then d else s
  | none => d

/-- One character of `toLowerCase` (ASCII range, as exercised by the
generators' entity names). -/
def jsCharToLower (c : Char) : Char :=
  if 'A' ≤ c ∧ c ≤ 'Z' then Char.ofNat (c.toNat + 32) else c

/-- JS `String.prototype.toLowerCase`. -/
def jsToLowerCase (s : String) : String :=
  String.mk (s.data.map jsCharToLower)

/-- The seven dataType discriminants of `core/types.ts`. -/
inductive DTKind where
  | string | number | boolean | date | array | object | enum
deriving Repr, DecidableEq

/-- `ValidationRules` from `core/types.ts`. -/
structure ValidationRules where
  min : Option Int
  max : Option Int
  minLength : Option Int
  maxLength : Option Int
  pattern : Option String
  email : Option Bool
  url : Option Bool
  uuid : Option Bool
  custom : Option (List String)
deriving Repr

/-- An empty `validation` object (all rule fields absent). -/
def ValidationRules.none : ValidationRules :=
  ⟨Option.none, Option.none, Option.none, Option.none, Option.none,
   Option.none, Option.none, Option.none, Option.none⟩

/-- `DataType` from `core/types.ts`: a recursive tagged record.  `enum` has
TS type `string[]`, `properties` is a `Record<string, DataType>` (ordered),
`default` has TS type `any` (modelled as a `Json` value). -/
inductive DataType where
  | mk (type : DTKind) (format : Option String) (items : Option DataType)
       (properties : Option (List (String × DataType))) (enum : Option (List String))
       (required : Bool) (nullable : Bool) (default : Option Json)
       (description : Option String) (validation : Option ValidationRules)

def DataType.type : DataType → DTKind
  | .mk t _ _ _ _ _ _ _ _ _ => t

def DataType.format : DataType → Option String
  | .mk _ f _ _ _ _ _ _ _ _ => f

def DataType.items : DataType → Option DataType
  | .mk _ _ i _ _ _ _ _ _ _ => i

def DataType.properties : DataType → Option (List (String × DataType))
  | .mk _ _ _ p _ _ _ _ _ _ => p

def DataType.enum : DataType → Option (List String)
  | .mk _ _ _ _ e _ _ _ _ _ => e

def DataType.required : DataType → Bool
  | .mk _ _ _ _ _ r _ _ _ _ => r

def DataType.nullable : DataType → Bool
  | .mk _ _ _ _ _ _ n _ _ _ => n

def DataType.default : DataType → Option Json
  | .mk _ _ _ _ _ _ _ d _ _ => d

def DataType.description : DataType → Option String
  | .mk _ _ _ _ _ _ _ _ d _ => d

def DataType.validation : DataType → Option ValidationRules
  | .mk _ _ _ _ _ _ _ _ _ v => v

/-- A plain scalar `DataType` of the given kind with every optional field
absent, used to build concrete models. -/
def DataType.base (k : DTKind) : DataType :=
  .mk k none none none none false false none none none

/-- The four relationship kinds. -/
inductive RelType where
  | oneToOne | oneToMany | manyToOne | manyToMany
deriving Repr, DecidableEq

/-- `Relationship` from `core/types.ts`. -/
structure Relationship where
  type : RelType
  target : String
  foreignKey : Option String
  joinTable : Option String
  cascade : Bool
  eager : Bool
  onDelete : Option String
deriving Repr

/-- `EntityField` from `core/types.ts`; optional booleans are modelled as
`Bool` (absent ≡ `false`, matching how the source only tests truthiness). -/
structure EntityField where
  name : String
  dataType : DataType
  relationship : Option Relationship
  isPrimaryKey : Bool
  isUnique : Bool
  isIndexed : Bool
  isGenerated : Bool
  generationStrategy : Option String

/-- `Index` from `core/types.ts`. -/
structure Index where
  name : String
  fields : List String
  unique : Bool
  type : Option String
deriving Repr

/-- `Constraint` from `core/types.ts` (`references` flattened). -/
structure Constraint where
  name : String
  type : String
  fields : List String
  expression : Option String
deriving Repr

/-- `Entity` from `core/types.ts`. -/
structure Entity where
  name : String
  tableName : Option String
  description : Option String
  fields : List EntityField
  indexes : List Index
  constraints : List Constraint
  timestamps : Bool
  softDelete : Bool

/-- `EnumDefinition` from `core/types.ts`. -/
structure EnumDefinition where
  name : String
  values : List String
  description : Option String
deriving Repr

/-- `DataModel` from `core/types.ts`. -/
structure DataModel where
  name : String
  version : String
  description : Option String
  entities : List Entity
  enums : Option (List EnumDefinition)
  metadata : List (String × Json)

/-- `ProjectConfig.project`. -/
structure ProjectInfo where
  name : String
  description : Option String
  version : String
  author : Option String
deriving Repr

/-- `ProjectConfig.database`. -/
structure DatabaseConfig where
  type : String
  host : Option String
  port : Option Int
  database : Option String
  schema : Option String
deriving Repr

/-- `ProjectConfig.features` (optional booleans as `Bool`). -/
structure FeatureFlags where
  authentication : Bool
  authorization : Bool
  swagger : Bool
  asyncapi : Bool
  docker : Bool
  testing : Bool
  logging : Bool
  monitoring : Bool
deriving Repr

/-- `ProjectConfig.generation`. -/
structure GenerationConfig where
  outputDir : Option String
  templateDir : Option String
  overwrite : Bool
  backup : Bool
deriving Repr

/-- `ProjectConfig` from `core/types.ts` (`github` omitted: never read by
the embedded components). -/
structure ProjectConfig where
  project : ProjectInfo
  database : DatabaseConfig
  features : FeatureFlags
  generation : GenerationConfig
deriving Repr

/-- `GeneratedFile` from `core/types.ts`. -/
structure GeneratedFile where
  path : String
  content : String
  type : String
  language : Option String
deriving Repr, DecidableEq

/-- `GenerationResult` from `core/types.ts`. -/
structure GenerationResult where
  success : Bool
  files : List GeneratedFile
  errors : List String
  warnings : List String
deriving Repr, DecidableEq

/-- Relationship type rendered as in the source string templates. -/
def RelType.toStr : RelType → String
  | .oneToOne => "oneToOne"
  | .oneToMany => "oneToMany"
  | .manyToOne => "manyToOne"
  | .manyToMany => "manyToMany"

/-- `Array.isArray` applied to a value whose TS type is `string[]`: the
test is true for every present value, so branches guarded by its negation
are unreachable.  Kept as a named function so the transliterated
conditionals match the source text. -/
def arrayIsArray (_ : List String) : Bool := true

/-- `^[A-Z][a-zA-Z0-9]*$` (all classes are ASCII, as in the JS regex). -/
def isPascalCase (s : String) : Bool :=
  match s.data with
  | [] => false
  | c :: rest => c.isUpper && rest.all (fun d => d.isUpper || d.isLower || d.isDigit)

/-- `^[a-z][a-zA-Z0-9]*$`. -/
def isCamelCase (s : String) : Bool :=
  match s.data with
  | [] => false
  | c :: rest => c.isLower && rest.all (fun d => d.isUpper || d.isLower || d.isDigit)

/-- `^[A-Z][A-Z0-9_]*$`. -/
def isUpperSnake (s : String) : Bool :=
  match s.data with
  | [] => false
  | c :: rest => c.isUpper && rest.all (fun d => d.isUpper || d.isDigit || d = '_')

namespace NestJSGenerator

/-- `NestJSGenerator.dataTypeToColumnType`: maps an abstract `DataType` to a
TypeORM column type string.  The `maxLength` test transliterates
`dataType.validation?.maxLength && dataType.validation.maxLength <= 255`
(JS truthiness: `maxLength = 0` fails the first conjunct). -/
def dataTypeToColumnType (dataType : DataType) : String :=
  match dataType.type with
  | .string =>
      if dataType.format = some "uuid" then "uuid"
      else if intTruthy (dataType.validation.bind ValidationRules.maxLength)
              && decide ((dataType.validation.bind ValidationRules.maxLength).getD 0 ≤ 255) then
        "varchar"
      else "text"
  | .number =>
      if dataType.format = some "int32" then "int"
      else if dataType.format = some "int64" then "bigint"
      else "decimal"
  | .boolean => "boolean"
  | .date => if dataType.format = some "date" then "date" else "timestamp"
  | .array => "json"
  | .object => "json"
  | .enum => "enum"

end NestJSGenerator

namespace DataModelParser

/-- First loop of `validateBusinessRules`: duplicate-entity-name errors,
checking each name against the set of names already seen. -/
def duplicateEntityNameErrors : List Entity → List String → List String
  | [], _ => []
  | e :: rest, seen =>
      (if seen.contains e.name then ["Duplicate entity name: " ++ e.name] else [])
        ++ duplicateEntityNameErrors rest (e.name :: seen)

/-- Per-field relationship errors of `validateBusinessRules`: missing
target, missing `foreignKey` for manyToOne/oneToOne, missing `joinTable`
for manyToMany (all errors in this validator). -/
def relationshipFieldErrors (entityNames : List String) (ename : String)
    (f : EntityField) : List String :=
  match f.relationship with
  | none => []
  | some rel =>
      (if !entityNames.contains rel.target then
         ["Entity " ++ ename ++ "." ++ f.name ++ ": relationship target '"
            ++ rel.target ++ "' does not exist"]
       else []) ++
      (if (rel.type = .manyToOne ∨ rel.type = .oneToOne) ∧ !strTruthy rel.foreignKey then
         ["Entity " ++ ename ++ "." ++ f.name ++ ": " ++ rel.type.toStr
            ++ " relationship requires foreignKey"]
       else []) ++
      (if rel.type = .manyToMany ∧ !strTruthy rel.joinTable then
         ["Entity " ++ ename ++ "." ++ f.name ++ ": manyToMany relationship requires joinTable"]
       else [])

/-- Second loop of `validateBusinessRules`: relationship errors of every
field, then the at-least-one-primary-key check, per entity. -/
def entityBusinessErrors (entityNames : List String) (e : Entity) : List String :=
  e.fields.flatMap (relationshipFieldErrors entityNames e.name) ++
  (if (e.fields.filter EntityField.isPrimaryKey).length = 0 then
     ["Entity " ++ e.name ++ ": must have at least one primary key field"]
   else [])

/-- Third loop of `validateBusinessRules`: the enum-reference check.  The
source condition is
`enumRef && !enumNames.has(enumRef) && !Array.isArray(field.dataType.enum)`;
since `field.dataType.enum : string[]`, the last conjunct is always false
and no error can ever be produced here. -/
def enumReferenceErrors (enumNames : List String) (e : Entity) : List String :=
  e.fields.flatMap fun f =>
    if f.dataType.type = .enum then
      match f.dataType.enum with
      | some vs =>
          match vs.head? with
          | some enumRef =>
              if !enumRef.isEmpty && !enumNames.contains enumRef && !arrayIsArray vs then
                ["Entity " ++ e.name ++ "." ++ f.name ++ ": enum reference '"
                   ++ enumRef ++ "' does not exist"]
              else []
          | none => []
      | none => []
    else []

/-- The error list accumulated by `DataModelParser.validateBusinessRules`,
in source push order: duplicate entity names, then per-entity relationship
and primary-key errors, then enum-reference errors. -/
def businessRuleErrors (m : DataModel) : List String :=
  let entityNames := m.entities.map Entity.name
  let enumNames := (m.enums.getD []).map EnumDefinition.name
  duplicateEntityNameErrors m.entities [] ++
  m.entities.flatMap (entityBusinessErrors entityNames) ++
  m.entities.flatMap (enumReferenceErrors enumNames)

/-- `DataModelParser.validateBusinessRules`: accumulates the error list and
throws (models `throw new Error(...)` as `Except.error`) one aggregated
newline-joined message when any rule failed. -/
def validateBusinessRules (m : DataModel) : Except String Unit :=
  let errors := businessRuleErrors m
  if errors.length > 0 then
    .error ("Business rule validation failed:\n" ++ String.intercalate "\n" errors)
  else .ok ()

/-- `DataModelParser.validateAndParse`.  The ajv structural check runs
against a JSON-schema file external to the embedded sources, so it is
abstracted as a boolean outcome plus its aggregated message; a structural
failure short-circuits before the business rules, as in the source. -/
def validateAndParse (structuralOk : Bool) (structuralErrors : String)
    (m : DataModel) : Except String DataModel :=
  if !structuralOk then
    .error ("Data model validation failed: " ++ structuralErrors)
  else
    match validateBusinessRules m with
    | .error e => .error e
    | .ok _ => .ok m

end DataModelParser

namespace ValidateCommand

/-- `ValidateCommand.validateEntityRelationships`: returns the pushed
`(errors, warnings)` in source order.  Missing targets are errors; missing
`joinTable`/`foreignKey` are warnings in this validator. -/
def validateEntityRelationships (m : DataModel) : List String × List String :=
  let entityNames := m.entities.map Entity.name
  let errors := m.entities.flatMap fun e => e.fields.flatMap fun f =>
    match f.relationship with
    | some rel =>
        if !entityNames.contains rel.target then
          ["Entity " ++ e.name ++ "." ++ f.name ++ ": relationship target '"
             ++ rel.target ++ "' does not exist"]
        else []
    | none => []
  let warnings := m.entities.flatMap fun e => e.fields.flatMap fun f =>
    match f.relationship with
    | some rel =>
        (if rel.type = .manyToMany ∧ !strTruthy rel.joinTable then
           ["Entity " ++ e.name ++ "." ++ f.name
              ++ ": manyToMany relationship should specify joinTable"]
         else []) ++
        (if (rel.type = .manyToOne ∨ rel.type = .oneToOne) ∧ !strTruthy rel.foreignKey then
           ["Entity " ++ e.name ++ "." ++ f.name ++ ": " ++ rel.type.toStr
              ++ " relationship should specify foreignKey"]
         else [])
    | none => []
  (errors, warnings)

/-- Error half of `ValidateCommand.validateFieldDataType`. -/
def fieldDataTypeErrors (entityName : String) (f : EntityField) : List String :=
  let dt := f.dataType
  (if dt.type = .enum then
     match dt.enum with
     | none => ["Entity " ++ entityName ++ "." ++ f.name ++ ": enum type must have at least one value"]
     | some vs =>
         if !arrayIsArray vs || vs.length = 0 then
           ["Entity " ++ entityName ++ "." ++ f.name ++ ": enum type must have at least one value"]
         else []
   else []) ++
  (if dt.type = .string then
     match dt.validation with
     | some v =>
         match v.minLength, v.maxLength with
         | some mn, some mx =>
             if mn > mx then
               ["Entity " ++ entityName ++ "." ++ f.name ++ ": minLength cannot be greater than maxLength"]
             else []
         | _, _ => []
     | none => []
   else []) ++
  (if dt.type = .number then
     match dt.validation with
     | some v =>
         match v.min, v.max with
         | some mn, some mx =>
             if mn > mx then
               ["Entity " ++ entityName ++ "." ++ f.name ++ ": min cannot be greater than max"]
             else []
         | _, _ => []
     | none => []
   else [])

/-- Warning half of `ValidateCommand.validateFieldDataType` (array items
advisory plus the strict-mode description/maxLength advisories). -/
def fieldDataTypeWarnings (entityName : String) (f : EntityField) (strict : Bool) : List String :=
  let dt := f.dataType
  (if dt.type = .array ∧ dt.items.isNone then
     ["Entity " ++ entityName ++ "." ++ f.name ++ ": array type should specify items type"]
   else []) ++
  (if strict ∧ !strTruthy dt.description then
     ["Entity " ++ entityName ++ "." ++ f.name ++ ": missing field description"]
   else []) ++
  (if strict ∧ dt.type = .string ∧ !intTruthy (dt.validation.bind ValidationRules.maxLength) then
     ["Entity " ++ entityName ++ "." ++ f.name ++ ": string field should have maxLength constraint"]
   else [])

/-- Per-field loop of `ValidateCommand.validateEntityFields`: duplicate
name check followed by the data-type errors, threading the seen-name set. -/
def duplicateFieldErrors (ename : String) : List EntityField → List String → List String
  | [], _ => []
  | f :: rest, seen =>
      ((if seen.contains f.name then
          ["Entity " ++ ename ++ ": duplicate field name '" ++ f.name ++ "'"]
        else [])
        ++ fieldDataTypeErrors ename f)
        ++ duplicateFieldErrors ename rest (f.name :: seen)

/-- Errors pushed by `ValidateCommand.validateEntityFields` for one entity:
the field loop, then the primary-key cardinality checks. -/
def entityFieldErrors (e : Entity) : List String :=
  duplicateFieldErrors e.name e.fields [] ++
  (let primaryKeys := e.fields.filter EntityField.isPrimaryKey
   (if primaryKeys.length = 0 then
      ["Entity " ++ e.name ++ ": must have at least one primary key field"]
    else []) ++
   (if (primaryKeys.filter EntityField.isGenerated).length > 1 then
      ["Entity " ++ e.name ++ ": cannot have multiple generated primary keys"]
    else []))

/-- `ValidateCommand.validateEntityFields` as `(errors, warnings)`. -/
def validateEntityFields (m : DataModel) (strict : Bool) : List String × List String :=
  (m.entities.flatMap entityFieldErrors,
   m.entities.flatMap fun e => e.fields.flatMap fun f => fieldDataTypeWarnings e.name f strict)

/-- `ValidateCommand.validateNamingConventions` (warnings only). -/
def namingConventionWarnings (m : DataModel) (strict : Bool) : List String :=
  (m.entities.flatMap fun e =>
    (if !isPascalCase e.name then
       ["Entity " ++ e.name ++ ": name should be in PascalCase"]
     else []) ++
    e.fields.flatMap fun f =>
      if !isCamelCase f.name then
        ["Entity " ++ e.name ++ "." ++ f.name ++ ": field name should be in camelCase"]
      else []) ++
  ((m.enums.getD []).flatMap fun ed =>
    (if !isPascalCase ed.name then
       ["Enum " ++ ed.name ++ ": name should be in PascalCase"]
     else []) ++
    ed.values.flatMap fun v =>
      if strict ∧ !isUpperSnake v then
        ["Enum " ++ ed.name ++ "." ++ v ++ ": value should be in UPPER_CASE"]
      else [])

end ValidateCommand

namespace ValidateCommand

/-- `Map.set` on the entity graph: overwrite in place (a JS `Map` keeps the
original insertion position) or append. -/
def mapSet (m : List (String × List String)) (k : String) (v : List String) :
    List (String × List String) :=
  match m with
  | [] => [(k, v)]
  | (k', v') :: rest => if k' = k then (k', v) :: rest else (k', v') :: mapSet rest k v

/-- `Map.get` on the entity graph. -/
def mapGet (m : List (String × List String)) (k : String) : Option (List String) :=
  match m with
  | [] => none
  | (k', v') :: rest => if k' = k then some v' else mapGet rest k

/-- The edges pushed for one entity by `checkCircularRelationships`: one
target per relationship field whose type is not `oneToMany`, in field
order. -/
def entityEdges (e : Entity) : List String :=
  e.fields.flatMap fun f =>
    match f.relationship with
    | some rel => if rel.type ≠ .oneToMany then [rel.target] else []
    | none => []

/-- The relationship graph of `checkCircularRelationships`: each entity is
`set` to `[]` and then its qualifying edges are pushed, which nets out to
setting the entity's name to its edge list. -/
def buildEntityGraph (entities : List Entity) : List (String × List String) :=
  entities.foldl (fun g e => mapSet g e.name (entityEdges e)) []

/-- The `for (const neighbor of neighbors)` loop inside `hasCycle`:
unvisited neighbours recurse (through `recur`, the enclosing `hasCycle`); a
visited neighbour on the recursion stack is a back edge and reports a
cycle.  `visited` is threaded through and returned. -/
def dfsNeighbors (recur : String → List String → List String → Bool × List String)
    (stack : List String) : List String → List String → Bool × List String
  | [], visited => (false, visited)
  | n :: rest, visited =>
      if visited.contains n then
        if stack.contains n then (true, visited)
        else dfsNeighbors recur stack rest visited
      else
        match recur n visited stack with
        | (true, visited') => (true, visited')
        | (false, visited') => dfsNeighbors recur stack rest visited'

/-- The recursive `hasCycle` closure.  `visited` is the global visited set
(threaded through and returned), `stack` the per-path recursion stack
(restored on return by passing it by value).  `fuel` bounds the recursion
depth; every nested call visits a previously-unvisited node drawn from the
graph's keys and edge targets, so any fuel larger than their count cannot
run out (the zero-fuel branch is unreachable from `checkCircularRelationships`). -/
def hasCycleFuel (g : List (String × List String)) : Nat → String → List String → List String → Bool × List String
  | 0, _, visited, _ => (false, visited)
  | fuel + 1, node, visited, stack =>
      dfsNeighbors (hasCycleFuel g fuel) (node :: stack) ((mapGet g node).getD []) (node :: visited)

/-- `ValidateCommand.checkCircularRelationships`: builds the graph, then
starts a DFS at every not-yet-visited entity, pushing one warning per
cycle-reporting root. -/
def checkCircularRelationships (m : DataModel) : List String :=
  let g := buildEntityGraph m.entities
  let fuel := g.length + (g.map (fun p => p.2.length)).foldl (· + ·) 0 + 1
  (m.entities.foldl
    (fun (acc : List String × List String) e =>
      let (warnings, visited) := acc
      if visited.contains e.name then (warnings, visited)
      else
        match hasCycleFuel g fuel e.name visited [] with
        | (true, visited') =>
            (warnings ++ ["Potential circular relationship detected involving entity " ++ e.name],
             visited')
        | (false, visited') => (warnings, visited'))
    ([], [])).1

/-- `ValidateCommand.validateDataModel` after the file read: on a parse
failure the caught message is recorded as the single error; otherwise the
four validators accumulate.  Returns `(errors, warnings, valid)`. -/
def validateDataModel (parseResult : Except String DataModel) (strict : Bool) :
    List String × List String × Bool :=
  match parseResult with
  | .error msg => (["Data model validation failed: " ++ msg], [], false)
  | .ok m =>
      let (relErrors, relWarnings) := validateEntityRelationships m
      let (fieldErrors, fieldWarnings) := validateEntityFields m strict
      let nameWarnings := namingConventionWarnings m strict
      let cycleWarnings := checkCircularRelationships m
      let errors := relErrors ++ fieldErrors
      let warnings := relWarnings ++ fieldWarnings ++ nameWarnings ++ cycleWarnings
      (errors, warnings, errors.length = 0)

end ValidateCommand

/-- A JS string-or-undefined value stored into an object literal. -/
def jsonOfOptStr : Option String → Json
  | some s => .str s
  | none => .undefined

/-- `if (dataType.default !== undefined) property.default = dataType.default`
(identical final statement of both property mappers). -/
def jsWithDefault (df : Option Json) (property : Json) : Json :=
  match df with
  | some d => property.setKey "default" d
  | none => property

namespace OpenAPIGenerator

/-- The `case 'string'` branch of `dataTypeToOpenAPIProperty`: base type
plus truthiness-guarded format and minLength/maxLength/pattern carries. -/
def stringPropertyCase (fmt : Option String) (vd : Option ValidationRules)
    (property : Json) : Json :=
  let p := property.setKey "type" (.str "string")
  let p := if strTruthy fmt then p.setKey "format" (.str (fmt.getD "")) else p
  match vd with
  | some v =>
      let p := if intTruthy v.minLength then
          p.setKey "minLength" (.num ((v.minLength.getD 0 : Int) : Rat)) else p
      let p := if intTruthy v.maxLength then
          p.setKey "maxLength" (.num ((v.maxLength.getD 0 : Int) : Rat)) else p
      if strTruthy v.pattern then p.setKey "pattern" (.str (v.pattern.getD "")) else p
  | none => p

/-- The `case 'number'` branch: integer for int32/int64, plus
presence-guarded minimum/maximum carries. -/
def numberPropertyCase (fmt : Option String) (vd : Option ValidationRules)
    (property : Json) : Json :=
  let p := property.setKey "type"
    (.str (if fmt = some "int32" ∨ fmt = some "int64" then "integer" else "number"))
  let p := if strTruthy fmt then p.setKey "format" (.str (fmt.getD "")) else p
  match vd with
  | some v =>
      let p := match v.min with
        | some mn => p.setKey "minimum" (.num (mn : Rat))
        | none => p
      (match v.max with
       | some mx => p.setKey "maximum" (.num (mx : Rat))
       | none => p)
  | none => p

/-- The `case 'date'` branch. -/
def datePropertyCase (fmt : Option String) (property : Json) : Json :=
  (property.setKey "type" (.str "string")).setKey "format" (.str (strOrElse fmt "date-time"))

/-- The `case 'enum'` branch.  The `$ref` else-branch is guarded by
`!Array.isArray(dataType.enum)` and is unreachable for the
`string[]`-typed `enum` member. -/
def enumPropertyCase (enm : Option (List String)) (property : Json) : Json :=
  match enm with
  | some vs =>
      if arrayIsArray vs then
        (property.setKey "type" (.str "string")).setKey "enum" (.arr (vs.map .str))
      else if vs.head?.isSome then
        property.setKey "$ref" (.str ("#/components/schemas/" ++ vs.headD ""))
      else property
  | none => property

mutual

/-- `OpenAPIGenerator.dataTypeToOpenAPIProperty`, transliterated switch by
switch with one helper per non-trivial case; `default` is carried through
by `jsWithDefault` and `nullable` is appended when truthy. -/
def dataTypeToOpenAPIProperty : DataType → Json
  | .mk ty fmt its props enm _ nl df ds vd =>
    let property : Json := .obj [("description", jsonOfOptStr ds)]
    let property :=
      match ty with
      | .string => stringPropertyCase fmt vd property
      | .number => numberPropertyCase fmt vd property
      | .boolean => property.setKey "type" (.str "boolean")
      | .date => datePropertyCase fmt property
      | .array =>
          (match its with
           | some i => (property.setKey "type" (.str "array")).setKey "items"
                         (dataTypeToOpenAPIProperty i)
           | none => property.setKey "type" (.str "array"))
      | .object =>
          (match props with
           | some pl => (property.setKey "type" (.str "object")).setKey "properties"
                          (.obj (mapOpenAPIProps pl))
           | none => property.setKey "type" (.str "object"))
      | .enum => enumPropertyCase enm property
    let property := jsWithDefault df property
    if nl then property.setKey "nullable" (.bool true) else property

/-- Recursion over `Object.entries(dataType.properties)`. -/
def mapOpenAPIProps : List (String × DataType) → List (String × Json)
  | [] => []
  | (k, d) :: rest => (k, dataTypeToOpenAPIProperty d) :: mapOpenAPIProps rest

end

end OpenAPIGenerator

namespace AsyncAPIGenerator

/-- The `case 'string'` branch of `dataTypeToAsyncAPIProperty`: base type
plus truthiness-guarded format — no validation carries. -/
def asyncStringPropertyCase (fmt : Option String) (property : Json) : Json :=
  let p := property.setKey "type" (.str "string")
  if strTruthy fmt then p.setKey "format" (.str (fmt.getD "")) else p

/-- The `case 'number'` branch — no minimum/maximum carries. -/
def asyncNumberPropertyCase (fmt : Option String) (property : Json) : Json :=
  let p := property.setKey "type"
    (.str (if fmt = some "int32" ∨ fmt = some "int64" then "integer" else "number"))
  if strTruthy fmt then p.setKey "format" (.str (fmt.getD "")) else p

/-- The `case 'date'` branch. -/
def asyncDatePropertyCase (fmt : Option String) (property : Json) : Json :=
  (property.setKey "type" (.str "string")).setKey "format" (.str (strOrElse fmt "date-time"))

/-- The `case 'enum'` branch (same dead `$ref` else-branch as the OpenAPI
mapper). -/
def asyncEnumPropertyCase (enm : Option (List String)) (property : Json) : Json :=
  match enm with
  | some vs =>
      if arrayIsArray vs then
        (property.setKey "type" (.str "string")).setKey "enum" (.arr (vs.map .str))
      else if vs.head?.isSome then
        property.setKey "$ref" (.str ("#/components/schemas/" ++ vs.headD ""))
      else property
  | none => property

mutual

/-- `AsyncAPIGenerator.dataTypeToAsyncAPIProperty`: same switch skeleton
as the OpenAPI mapper, but the string case carries no
minLength/maxLength/pattern, the number case no minimum/maximum, and there
is no `nullable` carry-through. -/
def dataTypeToAsyncAPIProperty : DataType → Json
  | .mk ty fmt its props enm _ _ df ds _ =>
    let property : Json := .obj [("description", jsonOfOptStr ds)]
    let property :=
      match ty with
      | .string => asyncStringPropertyCase fmt property
      | .number => asyncNumberPropertyCase fmt property
      | .boolean => property.setKey "type" (.str "boolean")
      | .date => asyncDatePropertyCase fmt property
      | .array =>
          (match its with
           | some i => (property.setKey "type" (.str "array")).setKey "items"
                         (dataTypeToAsyncAPIProperty i)
           | none => property.setKey "type" (.str "array"))
      | .object =>
          (match props with
           | some pl => (property.setKey "type" (.str "object")).setKey "properties"
                          (.obj (mapAsyncAPIProps pl))
           | none => property.setKey "type" (.str "object"))
      | .enum => asyncEnumPropertyCase enm property
    jsWithDefault df property

/-- Recursion over `Object.entries(dataType.properties)`. -/
def mapAsyncAPIProps : List (String × DataType) → List (String × Json)
  | [] => []
  | (k, d) :: rest => (k, dataTypeToAsyncAPIProperty d) :: mapAsyncAPIProps rest

end

end AsyncAPIGenerator

/-- Read-modify-write of an existing key (`spec.components.schemas[x] = v`
style nested mutation). -/
def Json.updateKey (o : Json) (k : String) (f : Json → Json) : Json :=
  match o.getKey k with
  | some v => o.setKey k (f v)
  | none => o

/-- Push onto a JSON array stored under a key. -/
def Json.pushKey (o : Json) (k : String) (v : Json) : Json :=
  o.updateKey k fun a =>
    match a with
    | .arr xs => .arr (xs ++ [v])
    | other => other

/-- Shared `try { ... } catch (error) { ... }` wrapper of every generator's
public `generate()`: a successful body yields `success: true` with the file
list and empty errors; a thrown error is caught and reported as
`success: false`, no files, and the single error message. -/
def runGenerate (body : Except String (List GeneratedFile)) : GenerationResult :=
  match body with
  | .ok files => ⟨true, files, [], []⟩
  | .error e => ⟨false, [], [e], []⟩

namespace OpenAPIGenerator

/-- The timestamp property objects added when `entity.timestamps` is set. -/
def timestampProp (desc : String) : Json :=
  .obj [("type", .str "string"), ("format", .str "date-time"), ("description", .str desc)]

/-- The per-field body of the `entityToSchema` loop: relationship fields
are skipped, others land in `properties` (and in `required` when their
dataType is required). -/
def schemaAddField (toProp : DataType → Json) (schema : Json) (f : EntityField) : Json :=
  match f.relationship with
  | some _ => schema
  | none =>
      let schema := schema.updateKey "properties" fun props =>
        props.setKey f.name (toProp f.dataType)
      if f.dataType.required then schema.pushKey "required" (.str f.name) else schema

/-- `OpenAPIGenerator.entityToSchema`. -/
def entityToSchema (entity : Entity) : Json :=
  let schema : Json := .obj
    [("type", .str "object"), ("description", jsonOfOptStr entity.description),
     ("properties", .obj []), ("required", .arr [])]
  let schema := entity.fields.foldl (schemaAddField dataTypeToOpenAPIProperty) schema
  if entity.timestamps then
    (schema.updateKey "properties" fun props =>
       props.setKey "createdAt" (timestampProp "Creation timestamp")).updateKey "properties"
      fun props => props.setKey "updatedAt" (timestampProp "Last update timestamp")
  else schema

/-- The per-field body of the `entityToCreateDto` loop: generated fields,
primary keys and relationships are skipped. -/
def createDtoAddField (schema : Json) (f : EntityField) : Json :=
  if f.isGenerated ∨ f.isPrimaryKey ∨ f.relationship.isSome then schema
  else
    let schema := schema.updateKey "properties" fun props =>
      props.setKey f.name (dataTypeToOpenAPIProperty f.dataType)
    if f.dataType.required then schema.pushKey "required" (.str f.name) else schema

/-- `OpenAPIGenerator.entityToCreateDto`. -/
def entityToCreateDto (entity : Entity) : Json :=
  let schema : Json := .obj
    [("type", .str "object"),
     ("description", .str ("Data transfer object for creating " ++ entity.name)),
     ("properties", .obj []), ("required", .arr [])]
  entity.fields.foldl createDtoAddField schema

/-- `OpenAPIGenerator.entityToUpdateDto`: the create DTO spread with a new
description and an emptied `required` list. -/
def entityToUpdateDto (entity : Entity) : Json :=
  ((entityToCreateDto entity).setKey "description"
      (.str ("Data transfer object for updating " ++ entity.name))).setKey "required" (.arr [])

/-- `spec.components.schemas[name] = v`. -/
def setSchema (spec : Json) (name : String) (v : Json) : Json :=
  spec.updateKey "components" fun c => c.updateKey "schemas" fun s => s.setKey name v

/-- The fixed `PaginationMeta` schema. -/
def paginationMetaSchema : Json :=
  .obj [("type", .str "object"),
        ("properties", .obj
          [("page", .obj [("type", .str "integer"), ("minimum", .num 1)]),
           ("limit", .obj [("type", .str "integer"), ("minimum", .num 1), ("maximum", .num 100)]),
           ("total", .obj [("type", .str "integer"), ("minimum", .num 0)]),
           ("totalPages", .obj [("type", .str "integer"), ("minimum", .num 0)])]),
        ("required", .arr [.str "page", .str "limit", .str "total", .str "totalPages"])]

/-- The fixed `ErrorResponse` schema. -/
def errorResponseSchema : Json :=
  .obj [("type", .str "object"),
        ("properties", .obj
          [("statusCode", .obj [("type", .str "integer")]),
           ("message", .obj [("type", .str "string")]),
           ("error", .obj [("type", .str "string")]),
           ("timestamp", .obj [("type", .str "string"), ("format", .str "date-time")]),
           ("path", .obj [("type", .str "string")])]),
        ("required", .arr [.str "statusCode", .str "message", .str "timestamp", .str "path"])]

/-- `OpenAPIGenerator.generateSchemas`: entity + DTO schemas, enum schemas,
then the two common schemas. -/
def generateSchemas (m : DataModel) (spec : Json) : Json :=
  let spec := m.entities.foldl
    (fun sp e =>
      let sp := setSchema sp e.name (entityToSchema e)
      let sp := setSchema sp ("Create" ++ e.name ++ "Dto") (entityToCreateDto e)
      setSchema sp ("Update" ++ e.name ++ "Dto") (entityToUpdateDto e))
    spec
  let spec :=
    match m.enums with
    | some enums =>
        enums.foldl
          (fun sp ed => setSchema sp ed.name
            (.obj [("type", .str "string"), ("enum", .arr (ed.values.map .str)),
                   ("description", jsonOfOptStr ed.description)]))
          spec
    | none => spec
  let spec := setSchema spec "PaginationMeta" paginationMetaSchema
  setSchema spec "ErrorResponse" errorResponseSchema

/-- `{ $ref: ... }`. -/
def refObj (r : String) : Json := .obj [("$ref", .str r)]

/-- `{ 'application/json': { schema: { $ref: ... } } }` response content. -/
def jsonContent (r : String) : Json :=
  .obj [("application/json", .obj [("schema", refObj r)])]

/-- `OpenAPIGenerator.generateListOperation`. -/
def generateListOperation (e : Entity) : Json :=
  .obj [("tags", .arr [.str e.name]),
        ("summary", .str ("List " ++ e.name ++ "s")),
        ("description", .str ("Retrieve a paginated list of " ++ e.name ++ "s")),
        ("parameters", .arr
          [.obj [("name", .str "page"), ("in", .str "query"),
                 ("description", .str "Page number"),
                 ("schema", .obj [("type", .str "integer"), ("minimum", .num 1), ("default", .num 1)])],
           .obj [("name", .str "limit"), ("in", .str "query"),
                 ("description", .str "Number of items per page"),
                 ("schema", .obj [("type", .str "integer"), ("minimum", .num 1),
                                  ("maximum", .num 100), ("default", .num 10)])],
           .obj [("name", .str "sort"), ("in", .str "query"),
                 ("description", .str "Sort field and direction (e.g., \"name:asc\")"),
                 ("schema", .obj [("type", .str "string")])]]),
        ("responses", .obj
          [("200", .obj
             [("description", .str "Successful response"),
              ("content", .obj
                [("application/json", .obj
                   [("schema", .obj
                      [("type", .str "object"),
                       ("properties", .obj
                         [("data", .obj [("type", .str "array"),
                                         ("items", refObj ("#/components/schemas/" ++ e.name))]),
                          ("meta", refObj "#/components/schemas/PaginationMeta")])])])])]),
           ("400", refObj "#/components/responses/BadRequest"),
           ("500", refObj "#/components/responses/InternalServerError")])]

/-- `OpenAPIGenerator.generateCreateOperation`. -/
def generateCreateOperation (e : Entity) : Json :=
  .obj [("tags", .arr [.str e.name]),
        ("summary", .str ("Create " ++ e.name)),
        ("description", .str ("Create a new " ++ e.name)),
        ("requestBody", .obj
          [("required", .bool true),
           ("content", jsonContent ("#/components/schemas/Create" ++ e.name ++ "Dto"))]),
        ("responses", .obj
          [("201", .obj [("description", .str "Created successfully"),
                         ("content", jsonContent ("#/components/schemas/" ++ e.name))]),
           ("400", refObj "#/components/responses/BadRequest"),
           ("500", refObj "#/components/responses/InternalServerError")])]

/-- The `id` path parameter shared by get/update/delete operations. -/
def idParam (e : Entity) : Json :=
  .obj [("name", .str "id"), ("in", .str "path"), ("required", .bool true),
        ("description", .str (e.name ++ " ID")),
        ("schema", .obj [("type", .str "string")])]

/-- `OpenAPIGenerator.generateGetOperation`. -/
def generateGetOperation (e : Entity) : Json :=
  .obj [("tags", .arr [.str e.name]),
        ("summary", .str ("Get " ++ e.name)),
        ("description", .str ("Retrieve a " ++ e.name ++ " by ID")),
        ("parameters", .arr [idParam e]),
        ("responses", .obj
          [("200", .obj [("description", .str "Successful response"),
                         ("content", jsonContent ("#/components/schemas/" ++ e.name))]),
           ("404", refObj "#/components/responses/NotFound"),
           ("500", refObj "#/components/responses/InternalServerError")])]

/-- `OpenAPIGenerator.generateUpdateOperation`. -/
def generateUpdateOperation (e : Entity) : Json :=
  .obj [("tags", .arr [.str e.name]),
        ("summary", .str ("Update " ++ e.name)),
        ("description", .str ("Update a " ++ e.name ++ " by ID")),
        ("parameters", .arr [idParam e]),
        ("requestBody", .obj
          [("required", .bool true),
           ("content", jsonContent ("#/components/schemas/Update" ++ e.name ++ "Dto"))]),
        ("responses", .obj
          [("200", .obj [("description", .str "Updated successfully"),
                         ("content", jsonContent ("#/components/schemas/" ++ e.name))]),
           ("400", refObj "#/components/responses/BadRequest"),
           ("404", refObj "#/components/responses/NotFound"),
           ("500", refObj "#/components/responses/InternalServerError")])]

/-- `OpenAPIGenerator.generateDeleteOperation`. -/
def generateDeleteOperation (e : Entity) : Json :=
  .obj [("tags", .arr [.str e.name]),
        ("summary", .str ("Delete " ++ e.name)),
        ("description", .str ("Delete a " ++ e.name ++ " by ID")),
        ("parameters", .arr [idParam e]),
        ("responses", .obj
          [("204", .obj [("description", .str "Deleted successfully")]),
           ("404", refObj "#/components/responses/NotFound"),
           ("500", refObj "#/components/responses/InternalServerError")])]

/-- `OpenAPIGenerator.generatePaths`. -/
def generatePaths (m : DataModel) (spec : Json) : Json :=
  m.entities.foldl
    (fun sp e =>
      let entityPath := "/" ++ jsToLowerCase e.name ++ "s"
      let sp := sp.updateKey "paths" fun p =>
        p.setKey entityPath (.obj [("get", generateListOperation e), ("post", generateCreateOperation e)])
      sp.updateKey "paths" fun p =>
        p.setKey (entityPath ++ "/{id}")
          (.obj [("get", generateGetOperation e), ("put", generateUpdateOperation e),
                 ("delete", generateDeleteOperation e)]))
    spec

/-- `OpenAPIGenerator.generateCommonResponses`. -/
def generateCommonResponses : Json :=
  .obj [("BadRequest", .obj [("description", .str "Bad Request"),
                             ("content", jsonContent "#/components/schemas/ErrorResponse")]),
        ("NotFound", .obj [("description", .str "Resource not found"),
                           ("content", jsonContent "#/components/schemas/ErrorResponse")]),
        ("InternalServerError", .obj [("description", .str "Internal Server Error"),
                                      ("content", jsonContent "#/components/schemas/ErrorResponse")])]

/-- `OpenAPIGenerator.addSecuritySchemes`. -/
def addSecuritySchemes (spec : Json) : Json :=
  let spec := spec.updateKey "components" fun c =>
    c.setKey "securitySchemes"
      (.obj [("bearerAuth", .obj [("type", .str "http"), ("scheme", .str "bearer"),
                                  ("bearerFormat", .str "JWT")])])
  spec.setKey "security" (.arr [.obj [("bearerAuth", .arr [])]])

/-- `OpenAPIGenerator.generateTags`. -/
def generateTags (m : DataModel) (spec : Json) : Json :=
  m.entities.foldl
    (fun sp e => sp.pushKey "tags"
      (.obj [("name", .str e.name),
             ("description", .str (strOrElse e.description (e.name ++ " operations")))]))
    spec

/-- `OpenAPIGenerator.generateOpenAPISpec`. -/
def generateOpenAPISpec (config : ProjectConfig) (m : DataModel) : Json :=
  let spec : Json := .obj
    [("openapi", .str "3.0.3"),
     ("info", .obj [("title", .str config.project.name),
                    ("description", jsonOfOptStr config.project.description),
                    ("version", .str config.project.version)]),
     ("servers", .arr
       [.obj [("url", .str "http://localhost:3000"), ("description", .str "Development server")],
        .obj [("url", .str "https://api.example.com"), ("description", .str "Production server")]]),
     ("paths", .obj []),
     ("components", .obj [("schemas", .obj []), ("responses", generateCommonResponses)]),
     ("tags", .arr [])]
  let spec :=
    if strTruthy config.project.author then
      spec.updateKey "info" fun i =>
        i.setKey "contact" (.obj [("name", .str (config.project.author.getD ""))])
    else spec
  let spec := generateSchemas m spec
  let spec := generatePaths m spec
  let spec := if config.features.authentication then addSecuritySchemes spec else spec
  generateTags m spec

/-- `OpenAPIGenerator.generate`, with the external `JSON.stringify` /
`yaml.stringify` serializers abstracted as parameters. -/
def generate (stringifyJson stringifyYaml : Json → String)
    (config : ProjectConfig) (m : DataModel) : GenerationResult :=
  let spec := generateOpenAPISpec config m
  runGenerate (.ok
    [⟨"openapi.json", stringifyJson spec, "config", some "json"⟩,
     ⟨"openapi.yaml", stringifyYaml spec, "config", some "yaml"⟩])

end OpenAPIGenerator

namespace AsyncAPIGenerator

/-- `{ $ref: ... }`. -/
def msgRef (r : String) : Json := .obj [("$ref", .str r)]

/-- `AsyncAPIGenerator.generateServers` (fixed literal object). -/
def generateServers : Json :=
  .obj [("development", .obj
          [("url", .str "localhost:5672"), ("protocol", .str "amqp"),
           ("description", .str "Development RabbitMQ server"),
           ("variables", .obj
             [("port", .obj [("description", .str "RabbitMQ port"), ("default", .str "5672")])])]),
        ("production", .obj
          [("url", .str "message-broker.example.com:5672"), ("protocol", .str "amqp"),
           ("description", .str "Production RabbitMQ server")]),
        ("redis", .obj
          [("url", .str "localhost:6379"), ("protocol", .str "redis"),
           ("description", .str "Redis server for real-time events")])]

/-- `AsyncAPIGenerator.entityToAsyncAPISchema`: same loop as the OpenAPI
entity schema but using the AsyncAPI property mapper. -/
def entityToAsyncAPISchema (entity : Entity) : Json :=
  let schema : Json := .obj
    [("type", .str "object"), ("description", jsonOfOptStr entity.description),
     ("properties", .obj []), ("required", .arr [])]
  let schema := entity.fields.foldl (OpenAPIGenerator.schemaAddField dataTypeToAsyncAPIProperty) schema
  if entity.timestamps then
    (schema.updateKey "properties" fun props =>
       props.setKey "createdAt" (OpenAPIGenerator.timestampProp "Creation timestamp")).updateKey
      "properties" fun props =>
        props.setKey "updatedAt" (OpenAPIGenerator.timestampProp "Last update timestamp")
  else schema

/-- `AsyncAPIGenerator.generateEventSchema`. -/
def generateEventSchema (e : Entity) : Json :=
  .obj [("type", .str "object"),
        ("description", .str ("Event payload for " ++ e.name ++ " operations")),
        ("properties", .obj
          [("metadata", msgRef "#/components/schemas/EventMetadata"),
           ("data", msgRef ("#/components/schemas/" ++ e.name)),
           ("previousData", .obj
             [("$ref", .str ("#/components/schemas/" ++ e.name)),
              ("description", .str "Previous state for update/delete events")])]),
        ("required", .arr [.str "metadata", .str "data"])]

/-- The fixed `EventMetadata` schema. -/
def eventMetadataSchema : Json :=
  .obj [("type", .str "object"),
        ("properties", .obj
          [("eventId", .obj [("type", .str "string"), ("format", .str "uuid"),
                             ("description", .str "Unique event identifier")]),
           ("eventType", .obj [("type", .str "string"), ("description", .str "Type of the event")]),
           ("timestamp", .obj [("type", .str "string"), ("format", .str "date-time"),
                               ("description", .str "Event timestamp")]),
           ("version", .obj [("type", .str "string"), ("description", .str "Event schema version")]),
           ("source", .obj [("type", .str "string"), ("description", .str "Event source service")]),
           ("correlationId", .obj [("type", .str "string"), ("format", .str "uuid"),
                                   ("description", .str "Correlation ID for tracing")])]),
        ("required", .arr [.str "eventId", .str "eventType", .str "timestamp",
                           .str "version", .str "source"])]

/-- `spec.components.schemas[name] = v`. -/
def setAsyncSchema (spec : Json) (name : String) (v : Json) : Json :=
  spec.updateKey "components" fun c => c.updateKey "schemas" fun s => s.setKey name v

/-- `AsyncAPIGenerator.generateSchemas`. -/
def generateSchemas (m : DataModel) (spec : Json) : Json :=
  let spec := m.entities.foldl
    (fun sp e =>
      let sp := setAsyncSchema sp e.name (entityToAsyncAPISchema e)
      setAsyncSchema sp (e.name ++ "Event") (generateEventSchema e))
    spec
  let spec :=
    match m.enums with
    | some enums =>
        enums.foldl
          (fun sp ed => setAsyncSchema sp ed.name
            (.obj [("type", .str "string"), ("enum", .arr (ed.values.map .str)),
                   ("description", jsonOfOptStr ed.description)]))
          spec
    | none => spec
  setAsyncSchema spec "EventMetadata" eventMetadataSchema

/-- `dataType.format?.includes('int')`. -/
def fmtIncludesInt (fmt : Option String) : Bool :=
  match fmt with
  | some s => (s.splitOn "int").length != 1
  | none => false

/-- `AsyncAPIGenerator.generateExampleValue`. -/
def generateExampleValue (f : EntityField) : Json :=
  let dataType := f.dataType
  match dataType.type with
  | .string =>
      if dataType.format = some "uuid" then .str "123e4567-e89b-12d3-a456-426614174000"
      else if dataType.format = some "email" then .str "user@example.com"
      else if dataType.format = some "url" then .str "https://example.com"
      else .str ("example " ++ f.name)
  | .number => if fmtIncludesInt dataType.format then .num 42 else .num (3.14 : Rat)
  | .boolean => .bool true
  | .date => .str "2023-01-01T12:00:00Z"
  | .array => .arr []
  | .object => .obj []
  | .enum =>
      match dataType.enum with
      | some vs => if arrayIsArray vs then jsonOfOptStr vs.head? else .str "EXAMPLE_VALUE"
      | none => .str "EXAMPLE_VALUE"

/-- `AsyncAPIGenerator.generateExamplePayload`. -/
def generateExamplePayload (config : ProjectConfig) (e : Entity) (eventType : String) : Json :=
  let examplePayload : Json := .obj
    [("metadata", .obj
       [("eventId", .str "123e4567-e89b-12d3-a456-426614174000"),
        ("eventType", .str (e.name ++ "." ++ eventType)),
        ("timestamp", .str "2023-01-01T12:00:00Z"),
        ("version", .str "1.0.0"),
        ("source", .str config.project.name),
        ("correlationId", .str "123e4567-e89b-12d3-a456-426614174001")]),
     ("data", .obj [])]
  let examplePayload := e.fields.foldl
    (fun ex f =>
      match f.relationship with
      | some _ => ex
      | none => ex.updateKey "data" fun d => d.setKey f.name (generateExampleValue f))
    examplePayload
  if e.timestamps then
    (examplePayload.updateKey "data" fun d =>
       d.setKey "createdAt" (.str "2023-01-01T12:00:00Z")).updateKey "data" fun d =>
      d.setKey "updatedAt" (.str "2023-01-01T12:00:00Z")
  else examplePayload

/-- `spec.components.messages[name] = v`. -/
def setMessage (spec : Json) (name : String) (v : Json) : Json :=
  spec.updateKey "components" fun c => c.updateKey "messages" fun ms => ms.setKey name v

/-- `AsyncAPIGenerator.generateMessages`: the three per-entity message
definitions (the created message also carries an example payload). -/
def generateMessages (config : ProjectConfig) (spec : Json) (e : Entity) : Json :=
  let n := e.name
  let spec := setMessage spec (n ++ "CreatedMessage")
    (.obj [("name", .str (n ++ "Created")), ("title", .str (n ++ " Created")),
           ("summary", .str ("A " ++ n ++ " was created")),
           ("contentType", .str "application/json"),
           ("traits", .arr [msgRef "#/components/messageTraits/commonHeaders"]),
           ("payload", msgRef ("#/components/schemas/" ++ n ++ "Event")),
           ("examples", .arr
             [.obj [("name", .str (n ++ "CreatedExample")),
                    ("summary", .str ("Example of " ++ n ++ " created event")),
                    ("payload", generateExamplePayload config e "created")]])])
  let spec := setMessage spec (n ++ "UpdatedMessage")
    (.obj [("name", .str (n ++ "Updated")), ("title", .str (n ++ " Updated")),
           ("summary", .str ("A " ++ n ++ " was updated")),
           ("contentType", .str "application/json"),
           ("traits", .arr [msgRef "#/components/messageTraits/commonHeaders"]),
           ("payload", msgRef ("#/components/schemas/" ++ n ++ "Event"))])
  setMessage spec (n ++ "DeletedMessage")
    (.obj [("name", .str (n ++ "Deleted")), ("title", .str (n ++ " Deleted")),
           ("summary", .str ("A " ++ n ++ " was deleted")),
           ("contentType", .str "application/json"),
           ("traits", .arr [msgRef "#/components/messageTraits/commonHeaders"]),
           ("payload", msgRef ("#/components/schemas/" ++ n ++ "Event"))])

/-- `AsyncAPIGenerator.generateSystemMessages` (HealthCheck literal). -/
def generateSystemMessages (spec : Json) : Json :=
  setMessage spec "HealthCheckMessage"
    (.obj [("name", .str "HealthCheck"), ("title", .str "System Health Check"),
           ("summary", .str "System health status information"),
           ("contentType", .str "application/json"),
           ("payload", .obj
             [("type", .str "object"),
              ("properties", .obj
                [("status", .obj [("type", .str "string"),
                                  ("enum", .arr [.str "healthy", .str "degraded", .str "unhealthy"])]),
                 ("timestamp", .obj [("type", .str "string"), ("format", .str "date-time")]),
                 ("services", .obj
                   [("type", .str "object"),
                    ("additionalProperties", .obj
                      [("type", .str "object"),
                       ("properties", .obj
                         [("status", .obj [("type", .str "string"),
                                           ("enum", .arr [.str "up", .str "down"])]),
                          ("responseTime", .obj [("type", .str "number"),
                                                 ("description", .str "Response time in milliseconds")])])])])]),
              ("required", .arr [.str "status", .str "timestamp"])])])

/-- `spec.channels[name] = v`. -/
def setChannel (spec : Json) (name : String) (v : Json) : Json :=
  spec.updateKey "channels" fun cs => cs.setKey name v

/-- One publish channel object. -/
def channelObj (desc opId summary msgRefStr : String) : Json :=
  .obj [("description", .str desc),
        ("publish", .obj [("operationId", .str opId), ("summary", .str summary),
                          ("message", msgRef msgRefStr)])]

/-- `AsyncAPIGenerator.generateChannels`: three lifecycle channels plus the
message definitions per entity, then the `system.health` channel and the
system messages. -/
def generateChannels (config : ProjectConfig) (m : DataModel) (spec : Json) : Json :=
  let spec := m.entities.foldl
    (fun sp e =>
      let entityName := jsToLowerCase e.name
      let sp := setChannel sp (entityName ++ ".created")
        (channelObj (e.name ++ " created events") ("on" ++ e.name ++ "Created")
          ("Handle " ++ e.name ++ " created event")
          ("#/components/messages/" ++ e.name ++ "CreatedMessage"))
      let sp := setChannel sp (entityName ++ ".updated")
        (channelObj (e.name ++ " updated events") ("on" ++ e.name ++ "Updated")
          ("Handle " ++ e.name ++ " updated event")
          ("#/components/messages/" ++ e.name ++ "UpdatedMessage"))
      let sp := setChannel sp (entityName ++ ".deleted")
        (channelObj (e.name ++ " deleted events") ("on" ++ e.name ++ "Deleted")
          ("Handle " ++ e.name ++ " deleted event")
          ("#/components/messages/" ++ e.name ++ "DeletedMessage"))
      generateMessages config sp e)
    spec
  let spec := setChannel spec "system.health"
    (.obj [("description", .str "System health check events"),
           ("subscribe", .obj
             [("operationId", .str "publishHealthCheck"),
              ("summary", .str "Publish system health status"),
              ("message", msgRef "#/components/messages/HealthCheckMessage")])])
  generateSystemMessages spec

/-- `AsyncAPIGenerator.generateMessageTraits`. -/
def generateMessageTraits (spec : Json) : Json :=
  spec.updateKey "components" fun c =>
    c.setKey "messageTraits"
      (.obj [("commonHeaders", .obj
        [("headers", .obj
          [("type", .str "object"),
           ("properties", .obj
             [("x-correlation-id", .obj [("type", .str "string"), ("format", .str "uuid"),
                                         ("description", .str "Correlation ID for request tracing")]),
              ("x-request-id", .obj [("type", .str "string"), ("format", .str "uuid"),
                                     ("description", .str "Unique request identifier")]),
              ("x-user-id", .obj [("type", .str "string"),
                                  ("description", .str "ID of the user who triggered the event")]),
              ("x-source-service", .obj [("type", .str "string"),
                                         ("description", .str "Service that published the event")])])])])])

/-- `AsyncAPIGenerator.generateAsyncAPISpec`. -/
def generateAsyncAPISpec (config : ProjectConfig) (m : DataModel) : Json :=
  let spec : Json := .obj
    [("asyncapi", .str "2.6.0"),
     ("info", .obj [("title", .str (config.project.name ++ " Events")),
                    ("version", .str config.project.version),
                    ("description", .str ("Event-driven API for " ++ config.project.name))]),
     ("servers", generateServers),
     ("channels", .obj []),
     ("components", .obj [("messages", .obj []), ("schemas", .obj [])])]
  let spec :=
    if strTruthy config.project.author then
      spec.updateKey "info" fun i =>
        i.setKey "contact" (.obj [("name", .str (config.project.author.getD ""))])
    else spec
  let spec := generateSchemas m spec
  let spec := generateChannels config m spec
  generateMessageTraits spec

/-- `AsyncAPIGenerator.generate`, serializers abstracted as in the OpenAPI
generator. -/
def generate (stringifyJson stringifyYaml : Json → String)
    (config : ProjectConfig) (m : DataModel) : GenerationResult :=
  let spec := generateAsyncAPISpec config m
  runGenerate (.ok
    [⟨"asyncapi.json", stringifyJson spec, "config", some "json"⟩,
     ⟨"asyncapi.yaml", stringifyYaml spec, "config", some "yaml"⟩])

end AsyncAPIGenerator

namespace NestJSGenerator

/-- The literal string templates of the NestJS generator (package.json,
bootstrap, per-entity class/service/controller/module/DTO bodies, database,
auth, config and test file contents).  They are abstracted as parameters:
the generator's public contract — result shape and the assembled, ordered
file list — does not depend on the template text, and the theorems about
`generate` quantify over them. -/
structure NestJSTemplates where
  packageJson : ProjectConfig → String
  mainFile : ProjectConfig → String
  appModule : ProjectConfig → DataModel → String
  appController : String
  appService : ProjectConfig → String
  entityClass : Entity → String
  createDto : Entity → String
  updateDto : Entity → String
  service : Entity → String
  controller : Entity → String
  moduleFile : Entity → String
  databaseConfig : ProjectConfig → String
  envExample : ProjectConfig → String
  authModule : ProjectConfig → String
  authService : ProjectConfig → String
  authController : ProjectConfig → String
  jwtStrategy : ProjectConfig → String
  loginDto : ProjectConfig → String
  registerDto : ProjectConfig → String
  tsconfig : String
  nestCli : String
  eslintrc : String
  prettierrc : String
  jestConfig : String
  e2eJestConfig : String

/-- `NestJSGenerator.generateEntityFiles`: six source files per entity
under `src/{entity}/`. -/
def generateEntityFiles (tpl : NestJSTemplates) (e : Entity) : List GeneratedFile :=
  let entityPath := jsToLowerCase e.name
  [⟨"src/" ++ entityPath ++ "/" ++ entityPath ++ ".entity.ts", tpl.entityClass e, "source", some "typescript"⟩,
   ⟨"src/" ++ entityPath ++ "/dto/create-" ++ entityPath ++ ".dto.ts", tpl.createDto e, "source", some "typescript"⟩,
   ⟨"src/" ++ entityPath ++ "/dto/update-" ++ entityPath ++ ".dto.ts", tpl.updateDto e, "source", some "typescript"⟩,
   ⟨"src/" ++ entityPath ++ "/" ++ entityPath ++ ".service.ts", tpl.service e, "source", some "typescript"⟩,
   ⟨"src/" ++ entityPath ++ "/" ++ entityPath ++ ".controller.ts", tpl.controller e, "source", some "typescript"⟩,
   ⟨"src/" ++ entityPath ++ "/" ++ entityPath ++ ".module.ts", tpl.moduleFile e, "source", some "typescript"⟩]

/-- `NestJSGenerator.generate`: package.json, app files, per-entity files,
database files, auth files when authentication is enabled, config files,
test files when testing is enabled — wrapped in the shared try/catch. -/
def generate (tpl : NestJSTemplates) (config : ProjectConfig) (m : DataModel) :
    GenerationResult :=
  runGenerate (.ok (
    [⟨"package.json", tpl.packageJson config, "config", some "json"⟩] ++
    [⟨"src/main.ts", tpl.mainFile config, "source", some "typescript"⟩,
     ⟨"src/app.module.ts", tpl.appModule config m, "source", some "typescript"⟩,
     ⟨"src/app.controller.ts", tpl.appController, "source", some "typescript"⟩,
     ⟨"src/app.service.ts", tpl.appService config, "source", some "typescript"⟩] ++
    m.entities.flatMap (generateEntityFiles tpl) ++
    [⟨"src/config/database.config.ts", tpl.databaseConfig config, "source", some "typescript"⟩,
     ⟨".env.example", tpl.envExample config, "config", none⟩] ++
    (if config.features.authentication then
       [⟨"src/auth/auth.module.ts", tpl.authModule config, "source", some "typescript"⟩,
        ⟨"src/auth/auth.service.ts", tpl.authService config, "source", some "typescript"⟩,
        ⟨"src/auth/auth.controller.ts", tpl.authController config, "source", some "typescript"⟩,
        ⟨"src/auth/strategies/jwt.strategy.ts", tpl.jwtStrategy config, "source", some "typescript"⟩,
        ⟨"src/auth/dto/login.dto.ts", tpl.loginDto config, "source", some "typescript"⟩,
        ⟨"src/auth/dto/register.dto.ts", tpl.registerDto config, "source", some "typescript"⟩]
     else []) ++
    [⟨"tsconfig.json", tpl.tsconfig, "config", some "json"⟩,
     ⟨"nest-cli.json", tpl.nestCli, "config", some "json"⟩,
     ⟨".eslintrc.js", tpl.eslintrc, "config", some "javascript"⟩,
     ⟨".prettierrc", tpl.prettierrc, "config", some "json"⟩] ++
    (if config.features.testing then
       [⟨"jest.config.js", tpl.jestConfig, "config", some "javascript"⟩,
        ⟨"test/jest-e2e.json", tpl.e2eJestConfig, "config", some "json"⟩]
     else [])))

end NestJSGenerator

namespace DataModelParser

/-- `DataModelParser.generateSample`: the two-entity User/Post blog model
shipped with the source. -/
def generateSample : DataModel :=
  { name := "BlogAPI", version := "1.0.0",
    description := some "A simple blog API data model",
    entities :=
      [{ name := "User", tableName := none,
         description := some "User entity for authentication and authorization",
         fields :=
           [{ name := "id",
              dataType := .mk .string (some "uuid") none none none false false none none none,
              relationship := none, isPrimaryKey := true, isUnique := false,
              isIndexed := false, isGenerated := true, generationStrategy := some "uuid" },
            { name := "email",
              dataType := .mk .string (some "email") none none none false false none none
                (some { ValidationRules.none with email := some true }),
              relationship := none, isPrimaryKey := false, isUnique := true,
              isIndexed := false, isGenerated := false, generationStrategy := none },
            { name := "name",
              dataType := .mk .string none none none none false false none none
                (some { ValidationRules.none with minLength := some 2, maxLength := some 100 }),
              relationship := none, isPrimaryKey := false, isUnique := false,
              isIndexed := false, isGenerated := false, generationStrategy := none },
            { name := "role",
              dataType := .mk .enum none none none (some ["UserRole"]) false false none none none,
              relationship := none, isPrimaryKey := false, isUnique := false,
              isIndexed := false, isGenerated := false, generationStrategy := none },
            { name := "posts",
              dataType := .mk .array none (some (DataType.base .object)) none none false false none none none,
              relationship := some ⟨.oneToMany, "Post", some "authorId", none, false, false, none⟩,
              isPrimaryKey := false, isUnique := false, isIndexed := false,
              isGenerated := false, generationStrategy := none }],
         indexes := [], constraints := [], timestamps := true, softDelete := false },
       { name := "Post", tableName := none, description := some "Blog post entity",
         fields :=
           [{ name := "id",
              dataType := .mk .string (some "uuid") none none none false false none none none,
              relationship := none, isPrimaryKey := true, isUnique := false,
              isIndexed := false, isGenerated := true, generationStrategy := some "uuid" },
            { name := "title",
              dataType := .mk .string none none none none false false none none
                (some { ValidationRules.none with minLength := some 1, maxLength := some 200 }),
              relationship := none, isPrimaryKey := false, isUnique := false,
              isIndexed := false, isGenerated := false, generationStrategy := none },
            { name := "content",
              dataType := DataType.base .string,
              relationship := none, isPrimaryKey := false, isUnique := false,
              isIndexed := false, isGenerated := false, generationStrategy := none },
            { name := "published",
              dataType := .mk .boolean none none none none false false (some (.bool false)) none none,
              relationship := none, isPrimaryKey := false, isUnique := false,
              isIndexed := false, isGenerated := false, generationStrategy := none },
            { name := "authorId",
              dataType := .mk .string (some "uuid") none none none false false none none none,
              relationship := none, isPrimaryKey := false, isUnique := false,
              isIndexed := false, isGenerated := false, generationStrategy := none },
            { name := "author",
              dataType := DataType.base .object,
              relationship := some ⟨.manyToOne, "User", some "authorId", none, false, false, none⟩,
              isPrimaryKey := false, isUnique := false, isIndexed := false,
              isGenerated := false, generationStrategy := none }],
         indexes := [⟨"idx_post_author", ["authorId"], false, none⟩,
                     ⟨"idx_post_published", ["published"], false, none⟩],
         constraints := [], timestamps := true, softDelete := false }],
    enums := some [⟨"UserRole", ["ADMIN", "USER", "MODERATOR"],
                    some "User roles for authorization"⟩],
    metadata := [] }

end DataModelParser

/-- A field with no relationship and no flags. -/
def simpleField (name : String) (dt : DataType) : EntityField :=
  ⟨name, dt, none, false, false, false, false, none⟩

/-- A generated uuid primary-key field. -/
def pkField (name : String) : EntityField :=
  ⟨name, .mk .string (some "uuid") none none none false false none none none,
   none, true, false, false, true, some "uuid"⟩

/-- A relationship-carrying field. -/
def relField (name : String) (rel : Relationship) (dt : DataType) : EntityField :=
  ⟨name, dt, some rel, false, false, false, false, none⟩

/-- An entity with only a name and fields. -/
def simpleEntity (name : String) (fields : List EntityField) : Entity :=
  ⟨name, none, none, fields, [], [], false, false⟩

/-- A model with only entities and enums. -/
def simpleModel (entities : List Entity) (enums : Option (List EnumDefinition)) : DataModel :=
  ⟨"TestModel", "1.0.0", none, entities, enums, []⟩

/-- Two entities related by mutual manyToOne relationships: the
relationship graph is the two-cycle A -> B -> A. -/
def cycleModelAB : DataModel :=
  simpleModel
    [simpleEntity "A" [pkField "id",
       relField "b" ⟨.manyToOne, "B", some "bId", none, false, false, none⟩ (DataType.base .object)],
     simpleEntity "B" [pkField "id",
       relField "a" ⟨.manyToOne, "A", some "aId", none, false, false, none⟩ (DataType.base .object)]]
    none

/-- A model whose only relationship edge is a single oneToMany field:
the relationship graph has no edges at all. -/
def oneToManyOnlyModel : DataModel :=
  simpleModel
    [simpleEntity "A" [pkField "id",
       relField "bs" ⟨.oneToMany, "B", some "aId", none, false, false, none⟩
         (.mk .array none (some (DataType.base .object)) none none false false none none none)],
     simpleEntity "B" [pkField "id"]]
    none

/-- An otherwise-valid model containing one enum field whose single-element
`enum` array names no defined `EnumDefinition`. -/
def unresolvedEnumRefModel : DataModel :=
  simpleModel
    [simpleEntity "Account"
      [pkField "id",
       simpleField "role" (.mk .enum none none none (some ["MissingEnum"]) false false none none none)]]
    (some [])

/-- An otherwise-valid model with one manyToOne relationship that lacks a
`foreignKey`. -/
def missingForeignKeyModel : DataModel :=
  simpleModel
    [simpleEntity "A" [pkField "id",
       relField "b" ⟨.manyToOne, "B", none, none, false, false, none⟩ (DataType.base .object)],
     simpleEntity "B" [pkField "id"]]
    none

/-- A model violating two distinct business rules (a duplicate entity name
and a missing primary key). -/
def twoViolationsModel : DataModel :=
  simpleModel
    [simpleEntity "A" [pkField "id"],
     simpleEntity "A" [simpleField "x" (DataType.base .string)]]
    none

/-- The single-element reference form of an enum dataType
(`{ type: 'enum', enum: ['UserRole'] }`). -/
def enumRefDataType : DataType :=
  .mk .enum none none none (some ["UserRole"]) false false none none none

/-- A nullable string dataType carrying a `maxLength` validation rule. -/
def constrainedStringDataType : DataType :=
  .mk .string none none none none false true none none
    (some { ValidationRules.none with maxLength := some 5 })

/-- A constraint-free array-of-string dataType. -/
def plainArrayDataType : DataType :=
  .mk .array none (some (DataType.base .string)) none none false false none none none

/-- A string dataType whose `maxLength` is present but `0` (falsy in JS). -/
def maxLenZeroDataType : DataType :=
  .mk .string none none none none false false none none
    (some { ValidationRules.none with maxLength := some 0 })

/-- A concrete `ProjectConfig` used to evaluate the generators. -/
def testProjectConfig : ProjectConfig :=
  ⟨⟨"BlogAPI", some "A simple blog API", "1.0.0", none⟩,
   ⟨"postgresql", some "localhost", some 5432, some "blogapi", none⟩,
   ⟨false, false, false, false, false, false, false, false⟩,
   ⟨some "generated", none, false, true⟩⟩

mutual

/-- Spec-side predicate for the amended C6 claim: a `DataType` (and all its
nested item/property dataTypes) carries no string length/pattern rules, no
numeric bounds, and no nullable flag — exactly the inputs on which the two
property mappers are claimed to agree. -/
def cleanForAsync : DataType → Bool
  | .mk ty _ its props _ _ nl _ _ vd =>
    !nl &&
    (match ty with
     | .string =>
         (match vd with
          | some v => !intTruthy v.minLength && !intTruthy v.maxLength && !strTruthy v.pattern
          | none => true)
     | .number =>
         (match vd with
          | some v => v.min.isNone && v.max.isNone
          | none => true)
     | _ => true) &&
    (match its with
     | some i => cleanForAsync i
     | none => true) &&
    (match props with
     | some pl => cleanForAsyncList pl
     | none => true)

/-- All property dataTypes clean. -/
def cleanForAsyncList : List (String × DataType) → Bool
  | [] => true
  | (_, d) :: rest => cleanForAsync d && cleanForAsyncList rest

end

/-- Spec-side column-type table: the C8 claim's deterministic function,
amended only in the varchar guard (`maxLength` must additionally be
nonzero, since the source tests JS truthiness before the bound). -/
def dataTypeToColumnTypeSpec (dt : DataType) : String :=
  match dt.type with
  | .string =>
      if dt.format = some "uuid" then "uuid"
      else
        match dt.validation.bind ValidationRules.maxLength with
        | some ml => if ml ≠ 0 ∧ ml ≤ 255 then "varchar" else "text"
        | none => "text"
  | .number =>
      if dt.format = some "int32" then "int"
      else if dt.format = some "int64" then "bigint"
      else "decimal"
  | .boolean => "boolean"
  | .date => if dt.format = some "date" then "date" else "timestamp"
  | .array => "json"
  | .object => "json"
  | .enum => "enum"

/-- The three lifecycle channel names of one entity. -/
def entityChannelNames (e : Entity) : List String :=
  [jsToLowerCase e.name ++ ".created", jsToLowerCase e.name ++ ".updated", jsToLowerCase e.name ++ ".deleted"]

/-- The keys of a generated document's `channels` object. -/
def channelKeys (spec : Json) : List String :=
  Json.keys ((spec.getKey "channels").getD .null)

/-- The keys of a schema object's `properties` object. -/
def propertyKeys (s : Json) : List String :=
  Json.keys ((s.getKey "properties").getD .null)

section JsonLemmas

theorem Json.lookupFields_setFields_self (fs : List (String × Json)) (k : String) (v : Json) :
    Json.lookupFields (Json.setFields fs k v) k = some v := by
  induction fs with
  | nil => simp [Json.setFields, Json.lookupFields]
  | cons hd tl ih =>
      obtain ⟨k', v'⟩ := hd
      by_cases h : k' = k
      · simp [Json.setFields, Json.lookupFields, h]
      · simp [Json.setFields, Json.lookupFields, h, ih]

theorem Json.lookupFields_setFields_ne (fs : List (String × Json)) (k k' : String) (v : Json)
    (h : k' ≠ k) :
    Json.lookupFields (Json.setFields fs k v) k' = Json.lookupFields fs k' := by
  induction fs with
  | nil => simp [Json.setFields, Json.lookupFields, Ne.symm h]
  | cons hd tl ih =>
      obtain ⟨k₀, v₀⟩ := hd
      by_cases h0 : k₀ = k
      · subst h0
        simp [Json.setFields, Json.lookupFields, Ne.symm h]
      · by_cases h1 : k₀ = k'
        · simp [Json.setFields, Json.lookupFields, h0, h1, h]
        · simp [Json.setFields, Json.lookupFields, h0, h1, ih]

theorem Json.keys_setFields_notMem (fs : List (String × Json)) (k : String) (v : Json)
    (h : k ∉ fs.map Prod.fst) :
    (Json.setFields fs k v).map Prod.fst = fs.map Prod.fst ++ [k] := by
  induction fs with
  | nil => simp [Json.setFields]
  | cons hd tl ih =>
      obtain ⟨k', v'⟩ := hd
      simp only [List.map_cons, List.mem_cons] at h
      push_neg at h
      simp [Json.setFields, Ne.symm h.1, ih h.2]

theorem Json.getKey_obj_setKey_self (fs : List (String × Json)) (k : String) (v : Json) :
    (Json.setKey (.obj fs) k v).getKey k = some v := by
  simp [Json.setKey, Json.getKey, Json.lookupFields_setFields_self]

theorem Json.getKey_setKey_ne (o : Json) (k k' : String) (v : Json) (h : k' ≠ k) :
    (o.setKey k v).getKey k' = o.getKey k' := by
  cases o <;> simp [Json.setKey, Json.getKey]
  exact Json.lookupFields_setFields_ne _ _ _ _ h

theorem Json.getKey_updateKey_ne (o : Json) (k k' : String) (f : Json → Json) (h : k' ≠ k) :
    (o.updateKey k f).getKey k' = o.getKey k' := by
  unfold Json.updateKey
  cases ho : o.getKey k with
  | none => rfl
  | some v => exact Json.getKey_setKey_ne o k k' (f v) h

theorem Json.exists_obj_of_getKey (o : Json) (k : String) (v : Json) (h : o.getKey k = some v) :
    ∃ fs, o = .obj fs := by
  cases o <;> simp [Json.getKey] at h ⊢

theorem Json.getKey_updateKey_self (o : Json) (k : String) (f : Json → Json) (v : Json)
    (h : o.getKey k = some v) :
    (o.updateKey k f).getKey k = some (f v) := by
  obtain ⟨fs, rfl⟩ := Json.exists_obj_of_getKey o k v h
  simp [Json.updateKey, h, Json.getKey_obj_setKey_self]

end JsonLemmas

section GraphLemmas

namespace ValidateCommand

theorem mapGet_mapSet_self (g : List (String × List String)) (k : String) (v : List String) :
    mapGet (mapSet g k v) k = some v := by
  induction g with
  | nil => simp [mapSet, mapGet]
  | cons hd tl ih =>
      obtain ⟨k', v'⟩ := hd
      by_cases h : k' = k
      · simp [mapSet, mapGet, h]
      · simp [mapSet, mapGet, h, ih]

theorem mapGet_mapSet_ne (g : List (String × List String)) (k k' : String) (v : List String)
    (h : k' ≠ k) :
    mapGet (mapSet g k v) k' = mapGet g k' := by
  induction g with
  | nil => simp [mapSet, mapGet, Ne.symm h]
  | cons hd tl ih =>
      obtain ⟨k₀, v₀⟩ := hd
      by_cases h0 : k₀ = k
      · subst h0
        simp [mapSet, mapGet, Ne.symm h]
      · by_cases h1 : k₀ = k'
        · simp [mapSet, mapGet, h0, h1, h]
        · simp [mapSet, mapGet, h0, h1, ih]

theorem mapGet_graph_foldl_of_notMem (es : List Entity) (g : List (String × List String))
    (k : String) (h : ∀ e ∈ es, e.name ≠ k) :
    mapGet (es.foldl (fun g e => mapSet g e.name (entityEdges e)) g) k = mapGet g k := by
  induction es generalizing g with
  | nil => rfl
  | cons x rest ih =>
      simp only [List.foldl_cons]
      rw [ih _ fun e he => h e (List.mem_cons_of_mem x he)]
      exact mapGet_mapSet_ne g x.name k (entityEdges x) (Ne.symm (h x (List.mem_cons_self x rest)))

theorem mapGet_buildEntityGraph_aux (es : List Entity) (g : List (String × List String))
    (hnd : (es.map Entity.name).Nodup) (e : Entity) (he : e ∈ es) :
    mapGet (es.foldl (fun g e => mapSet g e.name (entityEdges e)) g) e.name
      = some (entityEdges e) := by
  induction es generalizing g with
  | nil => cases he
  | cons x rest ih =>
      simp only [List.map_cons, List.nodup_cons] at hnd
      rcases List.mem_cons.mp he with rfl | hmem
      · simp only [List.foldl_cons]
        rw [mapGet_graph_foldl_of_notMem rest _ e.name
              (fun y hy hn => hnd.1 (hn ▸ List.mem_map_of_mem Entity.name hy))]
        exact mapGet_mapSet_self g e.name (entityEdges e)
      · exact ih _ hnd.2 hmem

theorem mem_entityEdges_iff (e : Entity) (b : String) :
    b ∈ entityEdges e ↔
      ∃ f ∈ e.fields, ∃ r : Relationship,
        f.relationship = some r ∧ r.target = b ∧ r.type ≠ RelType.oneToMany := by
  unfold entityEdges
  rw [List.mem_flatMap]
  constructor
  · rintro ⟨f, hf, hb⟩
    refine ⟨f, hf, ?_⟩
    cases hr : f.relationship with
    | none =>
        rw [hr] at hb
        exact absurd (hb : b ∈ ([] : List String)) (List.not_mem_nil b)
    | some r =>
        rw [hr] at hb
        have hb' : b ∈ (if r.type ≠ RelType.oneToMany then [r.target] else []) := hb
        by_cases ht : r.type ≠ RelType.oneToMany
        · rw [if_pos ht] at hb'
          simp only [List.mem_singleton] at hb'
          exact ⟨r, rfl, hb'.symm, ht⟩
        · rw [if_neg ht] at hb'
          exact absurd hb' (List.not_mem_nil b)
  · rintro ⟨f, hf, r, hr, rfl, ht⟩
    refine ⟨f, hf, ?_⟩
    show r.target ∈ (match f.relationship with
      | some rel => if rel.type ≠ RelType.oneToMany then [rel.target] else []
      | none => [])
    rw [hr]
    show r.target ∈ (if r.type ≠ RelType.oneToMany then [r.target] else [])
    rw [if_pos ht]
    exact List.mem_singleton.mpr rfl

end ValidateCommand

end GraphLemmas

/-- C1: relationship-cycle detection builds a directed graph with one node
per entity (for models with distinct entity names, each entity's node maps
to exactly its edge list) and an edge A -> B for each field of A whose
relationship targets B, excluding `oneToMany` relationships; consequently
the mutual-manyToOne A/B model gets a circular-relationship warning for
entity A, and a model whose only relationship edge is a single oneToMany
field gets no cycle warning. -/
theorem C1_cycle_detection :
    (∀ m : DataModel, (m.entities.map Entity.name).Nodup →
       ∀ e ∈ m.entities,
         ValidateCommand.mapGet (ValidateCommand.buildEntityGraph m.entities) e.name
           = some (ValidateCommand.entityEdges e)
         ∧ (∀ b : String, b ∈ ValidateCommand.entityEdges e ↔
              ∃ f ∈ e.fields, ∃ r : Relationship,
                f.relationship = some r ∧ r.target = b ∧ r.type ≠ RelType.oneToMany))
  ∧ ValidateCommand.checkCircularRelationships cycleModelAB
      = ["Potential circular relationship detected involving entity A"]
  ∧ ValidateCommand.checkCircularRelationships oneToManyOnlyModel = [] := by
  refine ⟨fun m hnd e he => ⟨?_, ValidateCommand.mem_entityEdges_iff e⟩, by decide, by decide⟩
  exact ValidateCommand.mapGet_buildEntityGraph_aux m.entities [] hnd e he

/-- Witness for C1 at the concrete two-entity cycle model: its entity
names are distinct, `A`'s graph node carries exactly the edge to `B`, and
the edge characterisation holds for `B`. -/
theorem C1_cycle_detection_witness :
    ValidateCommand.mapGet (ValidateCommand.buildEntityGraph cycleModelAB.entities) "A"
      = some ["B"] := by
  have h := (C1_cycle_detection.1 cycleModelAB (by decide)
    (simpleEntity "A" [pkField "id",
       relField "b" ⟨.manyToOne, "B", some "bId", none, false, false, none⟩ (DataType.base .object)])
    (List.mem_cons_self _ _)).1
  exact h

/-- C2: the claim says a single-element enum array naming no defined
`EnumDefinition` must produce an error.  The code's enum-reference check is
`enumRef && !enumNames.has(enumRef) && !Array.isArray(field.dataType.enum)`,
and since `dataType.enum` is a `string[]` the last conjunct is always
false: the unresolved reference `['MissingEnum']` produces no error
anywhere in the pipeline — the model validates clean. -/
theorem C2_unresolved_enum_reference_unflagged :
    ((unresolvedEnumRefModel.enums.getD []).map EnumDefinition.name).contains "MissingEnum" = false
  ∧ DataModelParser.businessRuleErrors unresolvedEnumRefModel = []
  ∧ DataModelParser.validateAndParse true "" unresolvedEnumRefModel = .ok unresolvedEnumRefModel
  ∧ (ValidateCommand.validateDataModel
       (DataModelParser.validateAndParse true "" unresolvedEnumRefModel) false).1 = [] :=
  ⟨rfl, rfl, rfl, rfl⟩

/-- C5: the claim says the single-element reference form maps to a
`$ref`.  The mapper's first branch (`Array.isArray(dataType.enum)`)
captures every array, so `{ type: 'enum', enum: ['UserRole'] }` is emitted
as an inline `{type: 'string', enum: ['UserRole']}` and the `$ref` branch
is unreachable. -/
theorem C5_enum_reference_property :
    OpenAPIGenerator.dataTypeToOpenAPIProperty enumRefDataType
      = .obj [("description", .undefined), ("type", .str "string"), ("enum", .arr [.str "UserRole"])]
  ∧ (OpenAPIGenerator.dataTypeToOpenAPIProperty enumRefDataType).getKey "$ref" = none :=
  ⟨rfl, rfl⟩

/-- C8 counterexample: `maxLength` set to `0` is "set and at most 255", so
the claim requires `'varchar'`, but the JS truthiness test
`dataType.validation?.maxLength && ...` rejects `0` and the code returns
`'text'`. -/
theorem C8_column_type_counterexample :
    maxLenZeroDataType.validation.bind ValidationRules.maxLength = some 0
  ∧ (0 : Int) ≤ 255
  ∧ NestJSGenerator.dataTypeToColumnType maxLenZeroDataType = "text"
  ∧ NestJSGenerator.dataTypeToColumnType maxLenZeroDataType ≠ "varchar" :=
  ⟨rfl, by decide, rfl, by decide⟩

/-- C8 amended: the column-type mapper equals the claim's deterministic
table once the varchar guard additionally requires a nonzero `maxLength`
(JS truthiness); every other line of the table holds as claimed. -/
theorem C8_column_type_amended (dt : DataType) :
    NestJSGenerator.dataTypeToColumnType dt = dataTypeToColumnTypeSpec dt := by
  obtain ⟨ty, fmt, its, props, enm, rq, nl, df, ds, vd⟩ := dt
  cases ty <;>
    simp only [NestJSGenerator.dataTypeToColumnType, dataTypeToColumnTypeSpec,
      DataType.type, DataType.format, DataType.validation]
  case string =>
    by_cases hf : fmt = some "uuid"
    · simp [hf]
    · simp only [hf, if_false]
      cases vd with
      | none => simp [intTruthy, Option.bind]
      | some v =>
          cases hml : v.maxLength with
          | none => simp [intTruthy, Option.bind, hml]
          | some ml =>
              by_cases h0 : ml = 0
              · simp [intTruthy, Option.bind, hml, h0]
              · by_cases h255 : ml ≤ 255
                · simp [intTruthy, Option.bind, hml, h0, h255]
                · simp [intTruthy, Option.bind, hml, h0, h255]

/-- C3 counterexample: the model whose only defect is a manyToOne
relationship without `foreignKey` is claimed to validate with empty errors
and an advisory warning, but `DataModelParser.validateBusinessRules`
treats the missing `foreignKey` as an error, so the pipeline reports a
non-empty error list. -/
theorem C3_missing_fk_counterexample :
    DataModelParser.businessRuleErrors missingForeignKeyModel
      = ["Entity A.b: manyToOne relationship requires foreignKey"]
  ∧ (ValidateCommand.validateDataModel
       (DataModelParser.validateAndParse true "" missingForeignKeyModel) false).1
      = ["Data model validation failed: Business rule validation failed:\nEntity A.b: manyToOne relationship requires foreignKey"]
  ∧ (ValidateCommand.validateDataModel
       (DataModelParser.validateAndParse true "" missingForeignKeyModel) false).1 ≠ [] :=
  ⟨rfl, rfl, by decide⟩

/-- C3 amended: missing `joinTable`/`foreignKey` produce the advisory
warnings only in `ValidateCommand.validateEntityRelationships`; the
parser's `validateBusinessRules` classifies the same conditions as errors,
which block the model at parse time. -/
theorem C3_relationship_convention_amended (m : DataModel) (e : Entity) (f : EntityField)
    (r : Relationship) (he : e ∈ m.entities) (hf : f ∈ e.fields)
    (hr : f.relationship = some r) :
    ((r.type = .manyToOne ∨ r.type = .oneToOne) → strTruthy r.foreignKey = false →
       ("Entity " ++ e.name ++ "." ++ f.name ++ ": " ++ r.type.toStr
          ++ " relationship should specify foreignKey")
         ∈ (ValidateCommand.validateEntityRelationships m).2
     ∧ ("Entity " ++ e.name ++ "." ++ f.name ++ ": " ++ r.type.toStr
          ++ " relationship requires foreignKey")
         ∈ DataModelParser.businessRuleErrors m)
  ∧ (r.type = .manyToMany → strTruthy r.joinTable = false →
       ("Entity " ++ e.name ++ "." ++ f.name
          ++ ": manyToMany relationship should specify joinTable")
         ∈ (ValidateCommand.validateEntityRelationships m).2
     ∧ ("Entity " ++ e.name ++ "." ++ f.name
          ++ ": manyToMany relationship requires joinTable")
         ∈ DataModelParser.businessRuleErrors m) := by
  constructor
  · intro hty hfk
    constructor
    · simp only [ValidateCommand.validateEntityRelationships]
      refine List.mem_flatMap.mpr ⟨e, he, List.mem_flatMap.mpr ⟨f, hf, ?_⟩⟩
      rw [hr]
      simp only [List.mem_append]
      refine Or.inr ?_
      rw [if_pos ⟨hty, by simp [hfk]⟩]
      exact List.mem_singleton.mpr rfl
    · simp only [DataModelParser.businessRuleErrors, List.mem_append]
      refine Or.inl (Or.inr ?_)
      refine List.mem_flatMap.mpr ⟨e, he, ?_⟩
      simp only [DataModelParser.entityBusinessErrors, List.mem_append]
      refine Or.inl ?_
      refine List.mem_flatMap.mpr ⟨f, hf, ?_⟩
      simp only [DataModelParser.relationshipFieldErrors]
      rw [hr]
      simp only [List.mem_append]
      refine Or.inl (Or.inr ?_)
      rw [if_pos ⟨hty, by simp [hfk]⟩]
      exact List.mem_singleton.mpr rfl
  · intro hty hjt
    constructor
    · simp only [ValidateCommand.validateEntityRelationships]
      refine List.mem_flatMap.mpr ⟨e, he, List.mem_flatMap.mpr ⟨f, hf, ?_⟩⟩
      rw [hr]
      simp only [List.mem_append]
      refine Or.inl ?_
      rw [if_pos ⟨hty, by simp [hjt]⟩]
      exact List.mem_singleton.mpr rfl
    · simp only [DataModelParser.businessRuleErrors, List.mem_append]
      refine Or.inl (Or.inr ?_)
      refine List.mem_flatMap.mpr ⟨e, he, ?_⟩
      simp only [DataModelParser.entityBusinessErrors, List.mem_append]
      refine Or.inl ?_
      refine List.mem_flatMap.mpr ⟨f, hf, ?_⟩
      simp only [DataModelParser.relationshipFieldErrors]
      rw [hr]
      simp only [List.mem_append]
      refine Or.inr ?_
      rw [if_pos ⟨hty, by simp [hjt]⟩]
      exact List.mem_singleton.mpr rfl

/-- Witness for the amended C3 at the concrete missing-foreignKey model:
the advisory warning and the blocking parser error are both present. -/
theorem C3_relationship_convention_witness :
    ("Entity A.b: manyToOne relationship should specify foreignKey")
      ∈ (ValidateCommand.validateEntityRelationships missingForeignKeyModel).2
  ∧ ("Entity A.b: manyToOne relationship requires foreignKey")
      ∈ DataModelParser.businessRuleErrors missingForeignKeyModel := by
  have h := (C3_relationship_convention_amended missingForeignKeyModel
    (simpleEntity "A" [pkField "id",
       relField "b" ⟨.manyToOne, "B", none, none, false, false, none⟩ (DataType.base .object)])
    (relField "b" ⟨.manyToOne, "B", none, none, false, false, none⟩ (DataType.base .object))
    ⟨.manyToOne, "B", none, none, false, false, none⟩
    (List.mem_cons_self _ _)
    (by simp [simpleEntity, relField, pkField])
    rfl).1 (Or.inl rfl) rfl
  exact h

/-- C4 counterexample: on a model violating two independent rules,
`DataModelParser.validateBusinessRules` does accumulate both messages but
then throws one aggregated error instead of returning
`{errors[], warnings[]}` — it never returns a result on a rule-violating
model. -/
theorem C4_throws_counterexample :
    DataModelParser.businessRuleErrors twoViolationsModel
      = ["Duplicate entity name: A", "Entity A: must have at least one primary key field"]
  ∧ DataModelParser.validateBusinessRules twoViolationsModel
      = .error ("Business rule validation failed:\nDuplicate entity name: A\nEntity A: must have at least one primary key field")
  ∧ DataModelParser.validateBusinessRules twoViolationsModel ≠ .ok () :=
  ⟨rfl, rfl, fun h => nomatch h⟩

/-- C4 amended: `DataModelParser.validateBusinessRules` evaluates every
rule additively and accumulates all messages, but on any violation it
throws a single aggregated newline-joined error (and produces no
warnings); it returns normally exactly when the accumulated error list is
empty.  The `ValidateCommand` validators do follow the claimed contract:
`validateDataModel` on a parsed model accumulates the validators' errors
and warnings lists and never throws, leaving fatality to the caller. -/
theorem C4_accumulate_then_throw_amended (m : DataModel) :
    (DataModelParser.validateBusinessRules m = .ok () ↔
       DataModelParser.businessRuleErrors m = [])
  ∧ (DataModelParser.businessRuleErrors m ≠ [] →
       DataModelParser.validateBusinessRules m =
         .error ("Business rule validation failed:\n"
           ++ String.intercalate "\n" (DataModelParser.businessRuleErrors m)))
  ∧ (∀ strict,
       (ValidateCommand.validateDataModel (.ok m) strict).1
         = (ValidateCommand.validateEntityRelationships m).1
           ++ (ValidateCommand.validateEntityFields m strict).1
     ∧ (ValidateCommand.validateDataModel (.ok m) strict).2.1
         = (ValidateCommand.validateEntityRelationships m).2
           ++ (ValidateCommand.validateEntityFields m strict).2
           ++ ValidateCommand.namingConventionWarnings m strict
           ++ ValidateCommand.checkCircularRelationships m) := by
  refine ⟨⟨fun hok => ?_, fun hnil => ?_⟩, fun hne => ?_, fun strict => ⟨rfl, rfl⟩⟩
  · by_cases h : (DataModelParser.businessRuleErrors m).length > 0
    · simp only [DataModelParser.validateBusinessRules, if_pos h] at hok
      exact nomatch hok
    · exact List.length_eq_zero.mp (Nat.eq_zero_of_not_pos h)
  · simp [DataModelParser.validateBusinessRules, hnil]
  · have h : (DataModelParser.businessRuleErrors m).length > 0 :=
      List.length_pos.mpr hne
    simp only [DataModelParser.validateBusinessRules, if_pos h]

/-- Witness for the amended C4 at the two-violation model: the thrown
message is exactly the aggregated newline-join of the accumulated list. -/
theorem C4_accumulate_then_throw_witness :
    DataModelParser.validateBusinessRules twoViolationsModel =
      .error ("Business rule validation failed:\n"
        ++ String.intercalate "\n" (DataModelParser.businessRuleErrors twoViolationsModel)) :=
  (C4_accumulate_then_throw_amended twoViolationsModel).2.1 (by decide)

theorem stringPropertyCase_clean (fmt : Option String) (v : ValidationRules) (p0 : Json)
    (h1 : intTruthy v.minLength = false) (h2 : intTruthy v.maxLength = false)
    (h3 : strTruthy v.pattern = false) :
    OpenAPIGenerator.stringPropertyCase fmt (some v) p0
      = AsyncAPIGenerator.asyncStringPropertyCase fmt p0 := by
  unfold OpenAPIGenerator.stringPropertyCase AsyncAPIGenerator.asyncStringPropertyCase
  simp [h1, h2, h3]

theorem numberPropertyCase_clean (fmt : Option String) (v : ValidationRules) (p0 : Json)
    (h1 : v.min = none) (h2 : v.max = none) :
    OpenAPIGenerator.numberPropertyCase fmt (some v) p0
      = AsyncAPIGenerator.asyncNumberPropertyCase fmt p0 := by
  unfold OpenAPIGenerator.numberPropertyCase AsyncAPIGenerator.asyncNumberPropertyCase
  simp [h1, h2]

theorem asyncEqOpenAPI_aux : ∀ n : Nat,
    (∀ dt : DataType, sizeOf dt ≤ n → cleanForAsync dt = true →
       AsyncAPIGenerator.dataTypeToAsyncAPIProperty dt = OpenAPIGenerator.dataTypeToOpenAPIProperty dt)
  ∧ (∀ pl : List (String × DataType), sizeOf pl ≤ n → cleanForAsyncList pl = true →
       AsyncAPIGenerator.mapAsyncAPIProps pl = OpenAPIGenerator.mapOpenAPIProps pl) := by
  intro n
  induction n with
  | zero =>
      constructor
      · intro dt hsz
        obtain ⟨ty, fmt, its, props, enm, rq, nl, df, ds, vd⟩ := dt
        exfalso
        simp only [DataType.mk.sizeOf_spec] at hsz
        omega
      · intro pl hsz _
        cases pl with
        | nil => rfl
        | cons hd tl =>
            exfalso
            simp only [List.cons.sizeOf_spec] at hsz
            omega
  | succ n ih =>
      constructor
      · intro dt hsz hclean
        obtain ⟨ty, fmt, its, props, enm, rq, nl, df, ds, vd⟩ := dt
        simp only [DataType.mk.sizeOf_spec] at hsz
        unfold cleanForAsync at hclean
        simp only [Bool.and_eq_true] at hclean
        obtain ⟨⟨⟨hnl, hty⟩, hits⟩, hprops⟩ := hclean
        have hnl' : nl = false := by
          cases nl
          · rfl
          · simp at hnl
        subst hnl'
        cases ty
        case boolean => rfl
        case date => rfl
        case enum => rfl
        case string =>
            cases vd with
            | none => rfl
            | some v =>
                have hty' : (!intTruthy v.minLength && !intTruthy v.maxLength
                    && !strTruthy v.pattern) = true := hty
                simp only [Bool.and_eq_true, Bool.not_eq_true'] at hty'
                obtain ⟨⟨h1, h2⟩, h3⟩ := hty'
                show jsWithDefault df (AsyncAPIGenerator.asyncStringPropertyCase fmt
                       (Json.obj [("description", jsonOfOptStr ds)]))
                   = jsWithDefault df (OpenAPIGenerator.stringPropertyCase fmt (some v)
                       (Json.obj [("description", jsonOfOptStr ds)]))
                rw [stringPropertyCase_clean fmt v _ h1 h2 h3]
        case number =>
            cases vd with
            | none => rfl
            | some v =>
                have hty' : (v.min.isNone && v.max.isNone) = true := hty
                simp only [Bool.and_eq_true, Option.isNone_iff_eq_none] at hty'
                obtain ⟨h1, h2⟩ := hty'
                show jsWithDefault df (AsyncAPIGenerator.asyncNumberPropertyCase fmt
                       (Json.obj [("description", jsonOfOptStr ds)]))
                   = jsWithDefault df (OpenAPIGenerator.numberPropertyCase fmt (some v)
                       (Json.obj [("description", jsonOfOptStr ds)]))
                rw [numberPropertyCase_clean fmt v _ h1 h2]
        case array =>
            cases its with
            | none => rfl
            | some i =>
                have hi : cleanForAsync i = true := hits
                have hsi : sizeOf i ≤ n := by
                  simp only [Option.some.sizeOf_spec] at hsz
                  omega
                show jsWithDefault df
                       (((Json.obj [("description", jsonOfOptStr ds)]).setKey "type"
                           (.str "array")).setKey "items"
                         (AsyncAPIGenerator.dataTypeToAsyncAPIProperty i))
                   = jsWithDefault df
                       (((Json.obj [("description", jsonOfOptStr ds)]).setKey "type"
                           (.str "array")).setKey "items"
                         (OpenAPIGenerator.dataTypeToOpenAPIProperty i))
                rw [ih.1 i hsi hi]
        case object =>
            cases props with
            | none => rfl
            | some pl =>
                have hp : cleanForAsyncList pl = true := hprops
                have hsp : sizeOf pl ≤ n := by
                  simp only [Option.some.sizeOf_spec] at hsz
                  omega
                show jsWithDefault df
                       (((Json.obj [("description", jsonOfOptStr ds)]).setKey "type"
                           (.str "object")).setKey "properties"
                         (.obj (AsyncAPIGenerator.mapAsyncAPIProps pl)))
                   = jsWithDefault df
                       (((Json.obj [("description", jsonOfOptStr ds)]).setKey "type"
                           (.str "object")).setKey "properties"
                         (.obj (OpenAPIGenerator.mapOpenAPIProps pl)))
                rw [ih.2 pl hsp hp]
      · intro pl hsz hclean
        cases pl with
        | nil => rfl
        | cons hd tl =>
            obtain ⟨k, d⟩ := hd
            simp only [List.cons.sizeOf_spec, Prod.mk.sizeOf_spec] at hsz
            unfold cleanForAsyncList at hclean
            simp only [Bool.and_eq_true] at hclean
            show (k, AsyncAPIGenerator.dataTypeToAsyncAPIProperty d)
                   :: AsyncAPIGenerator.mapAsyncAPIProps tl
               = (k, OpenAPIGenerator.dataTypeToOpenAPIProperty d)
                   :: OpenAPIGenerator.mapOpenAPIProps tl
            rw [ih.1 d (by omega) hclean.1, ih.2 tl (by omega) hclean.2]

/-- C6 counterexample: on a nullable string dataType with a `maxLength`
rule, the OpenAPI property mapper emits `maxLength` and `nullable` while
the AsyncAPI mapper emits neither — the two mappers are not extensionally
equal. -/
theorem C6_mapper_divergence :
    ((OpenAPIGenerator.dataTypeToOpenAPIProperty constrainedStringDataType).getKey "maxLength").isSome = true
  ∧ ((AsyncAPIGenerator.dataTypeToAsyncAPIProperty constrainedStringDataType).getKey "maxLength").isSome = false
  ∧ ((OpenAPIGenerator.dataTypeToOpenAPIProperty constrainedStringDataType).getKey "nullable").isSome = true
  ∧ ((AsyncAPIGenerator.dataTypeToAsyncAPIProperty constrainedStringDataType).getKey "nullable").isSome = false
  ∧ AsyncAPIGenerator.dataTypeToAsyncAPIProperty constrainedStringDataType
      ≠ OpenAPIGenerator.dataTypeToOpenAPIProperty constrainedStringDataType := by
  refine ⟨rfl, rfl, rfl, rfl, fun h => ?_⟩
  have hc : ((AsyncAPIGenerator.dataTypeToAsyncAPIProperty constrainedStringDataType).getKey "maxLength").isSome
      = ((OpenAPIGenerator.dataTypeToOpenAPIProperty constrainedStringDataType).getKey "maxLength").isSome := by
    rw [h]
  exact absurd hc (by decide)

/-- C6 amended: the AsyncAPI property mapper mirrors the OpenAPI one
except that it omits the string minLength/maxLength/pattern carries, the
numeric minimum/maximum carries, and the `nullable` flag; on every
`DataType` carrying none of those at any nesting level the two mappers
return the same object. -/
theorem C6_mapper_agreement (dt : DataType) (h : cleanForAsync dt = true) :
    AsyncAPIGenerator.dataTypeToAsyncAPIProperty dt
      = OpenAPIGenerator.dataTypeToOpenAPIProperty dt :=
  (asyncEqOpenAPI_aux (sizeOf dt)).1 dt (Nat.le_refl _) h

/-- Witness for the amended C6 at a concrete constraint-free
array-of-string dataType. -/
theorem C6_mapper_agreement_witness :
    cleanForAsync plainArrayDataType = true
  ∧ AsyncAPIGenerator.dataTypeToAsyncAPIProperty plainArrayDataType
      = OpenAPIGenerator.dataTypeToOpenAPIProperty plainArrayDataType :=
  ⟨rfl, C6_mapper_agreement plainArrayDataType rfl⟩

/-- C7: each generator's public `generate()` is the shared try/catch
wrapper: a caught internal error yields `success: false`, no files and one
descriptive error string; on success the result carries `success: true`,
empty errors and the complete ordered file list (two spec files for the
OpenAPI and AsyncAPI generators, and the full ordered backend tree for the
NestJS generator, dependent on the authentication/testing feature flags). -/
theorem C7_generate_contract :
    (∀ e : String, runGenerate (.error e) = ⟨false, [], [e], []⟩)
  ∧ (∀ body : Except String (List GeneratedFile),
       (runGenerate body).success = false →
         (runGenerate body).files = [] ∧ ∃ e, (runGenerate body).errors = [e])
  ∧ (∀ (sj sy : Json → String) (config : ProjectConfig) (m : DataModel),
       OpenAPIGenerator.generate sj sy config m =
         ⟨true,
          [⟨"openapi.json", sj (OpenAPIGenerator.generateOpenAPISpec config m), "config", some "json"⟩,
           ⟨"openapi.yaml", sy (OpenAPIGenerator.generateOpenAPISpec config m), "config", some "yaml"⟩],
          [], []⟩)
  ∧ (∀ (sj sy : Json → String) (config : ProjectConfig) (m : DataModel),
       AsyncAPIGenerator.generate sj sy config m =
         ⟨true,
          [⟨"asyncapi.json", sj (AsyncAPIGenerator.generateAsyncAPISpec config m), "config", some "json"⟩,
           ⟨"asyncapi.yaml", sy (AsyncAPIGenerator.generateAsyncAPISpec config m), "config", some "yaml"⟩],
          [], []⟩)
  ∧ (∀ (tpl : NestJSGenerator.NestJSTemplates) (config : ProjectConfig) (m : DataModel),
       (NestJSGenerator.generate tpl config m).success = true
     ∧ (NestJSGenerator.generate tpl config m).errors = []
     ∧ (NestJSGenerator.generate tpl config m).files.map GeneratedFile.path
         = ["package.json", "src/main.ts", "src/app.module.ts", "src/app.controller.ts",
            "src/app.service.ts"]
           ++ m.entities.flatMap (fun e =>
                ["src/" ++ jsToLowerCase e.name ++ "/" ++ jsToLowerCase e.name ++ ".entity.ts",
                 "src/" ++ jsToLowerCase e.name ++ "/dto/create-" ++ jsToLowerCase e.name ++ ".dto.ts",
                 "src/" ++ jsToLowerCase e.name ++ "/dto/update-" ++ jsToLowerCase e.name ++ ".dto.ts",
                 "src/" ++ jsToLowerCase e.name ++ "/" ++ jsToLowerCase e.name ++ ".service.ts",
                 "src/" ++ jsToLowerCase e.name ++ "/" ++ jsToLowerCase e.name ++ ".controller.ts",
                 "src/" ++ jsToLowerCase e.name ++ "/" ++ jsToLowerCase e.name ++ ".module.ts"])
           ++ ["src/config/database.config.ts", ".env.example"]
           ++ (if config.features.authentication then
                 ["src/auth/auth.module.ts", "src/auth/auth.service.ts",
                  "src/auth/auth.controller.ts", "src/auth/strategies/jwt.strategy.ts",
                  "src/auth/dto/login.dto.ts", "src/auth/dto/register.dto.ts"]
               else [])
           ++ ["tsconfig.json", "nest-cli.json", ".eslintrc.js", ".prettierrc"]
           ++ (if config.features.testing then ["jest.config.js", "test/jest-e2e.json"]
               else [])) := by
  refine ⟨fun e => rfl, ?_, fun sj sy config m => rfl, fun sj sy config m => rfl,
          fun tpl config m => ⟨rfl, rfl, ?_⟩⟩
  · intro body h
    cases body with
    | ok fs => simp [runGenerate] at h
    | error e => exact ⟨rfl, e, rfl⟩
  · have hent : ∀ e : Entity,
        (NestJSGenerator.generateEntityFiles tpl e).map GeneratedFile.path
          = ["src/" ++ jsToLowerCase e.name ++ "/" ++ jsToLowerCase e.name ++ ".entity.ts",
             "src/" ++ jsToLowerCase e.name ++ "/dto/create-" ++ jsToLowerCase e.name ++ ".dto.ts",
             "src/" ++ jsToLowerCase e.name ++ "/dto/update-" ++ jsToLowerCase e.name ++ ".dto.ts",
             "src/" ++ jsToLowerCase e.name ++ "/" ++ jsToLowerCase e.name ++ ".service.ts",
             "src/" ++ jsToLowerCase e.name ++ "/" ++ jsToLowerCase e.name ++ ".controller.ts",
             "src/" ++ jsToLowerCase e.name ++ "/" ++ jsToLowerCase e.name ++ ".module.ts"] :=
      fun e => rfl
    simp only [NestJSGenerator.generate, runGenerate, List.map_append,
      apply_ite (List.map GeneratedFile.path), List.map_flatMap, hent,
      List.map_cons, List.map_nil]
    simp [List.append_assoc]

/-- Witness for C7's failure-shape conjunct at a concrete caught error. -/
theorem C7_generate_contract_witness :
    (runGenerate (.error "boom")).files = []
  ∧ ∃ e, (runGenerate (.error "boom")).errors = [e] :=
  C7_generate_contract.2.1 (.error "boom") rfl

section ChannelLemmas

theorem Json.keys_setFields_step (cs : List (String × Json)) (n : String) (v : Json)
    (rem : List String) (h : (cs.map Prod.fst ++ n :: rem).Nodup) :
    (Json.setFields cs n v).map Prod.fst = cs.map Prod.fst ++ [n]
  ∧ ((Json.setFields cs n v).map Prod.fst ++ rem).Nodup := by
  have hn : n ∉ cs.map Prod.fst :=
    fun hm => (List.disjoint_of_nodup_append h) hm (List.mem_cons_self _ _)
  refine ⟨Json.keys_setFields_notMem cs n v hn, ?_⟩
  rw [Json.keys_setFields_notMem cs n v hn]
  simpa [List.append_assoc] using h

theorem foldl_preserves_getKey {α : Type} (f : Json → α → Json) (k : String)
    (hf : ∀ sp a, (f sp a).getKey k = sp.getKey k) (l : List α) (sp : Json) :
    (l.foldl f sp).getKey k = sp.getKey k := by
  induction l generalizing sp with
  | nil => rfl
  | cons x xs ih => rw [List.foldl_cons, ih, hf]

namespace AsyncAPIGenerator

theorem getKey_channels_setMessage (sp : Json) (n : String) (v : Json) :
    (setMessage sp n v).getKey "channels" = sp.getKey "channels" :=
  Json.getKey_updateKey_ne sp "components" "channels" _ (by decide)

theorem getKey_channels_generateMessages (config : ProjectConfig) (sp : Json) (e : Entity) :
    (generateMessages config sp e).getKey "channels" = sp.getKey "channels" := by
  unfold generateMessages
  simp only [getKey_channels_setMessage]

theorem getKey_channels_setAsyncSchema (sp : Json) (n : String) (v : Json) :
    (setAsyncSchema sp n v).getKey "channels" = sp.getKey "channels" :=
  Json.getKey_updateKey_ne sp "components" "channels" _ (by decide)

theorem getKey_channels_generateSchemas (m : DataModel) (sp : Json) :
    (generateSchemas m sp).getKey "channels" = sp.getKey "channels" := by
  unfold generateSchemas
  have hfold : ∀ sp0 : Json,
      ((m.entities).foldl (fun sp e =>
          let sp := setAsyncSchema sp e.name (entityToAsyncAPISchema e)
          setAsyncSchema sp (e.name ++ "Event") (generateEventSchema e)) sp0).getKey "channels"
        = sp0.getKey "channels" :=
    fun sp0 => foldl_preserves_getKey _ _
      (fun sp e => by simp only [getKey_channels_setAsyncSchema]) _ sp0
  rw [getKey_channels_setAsyncSchema]
  cases m.enums with
  | none => exact hfold sp
  | some enums =>
      rw [foldl_preserves_getKey _ "channels"
            (fun sp ed => getKey_channels_setAsyncSchema _ _ _) enums]
      exact hfold sp

theorem setChannel_keys_step (sp : Json) (cs : List (String × Json)) (n : String) (v : Json)
    (rem : List String) (hc : sp.getKey "channels" = some (.obj cs))
    (hnd : (cs.map Prod.fst ++ n :: rem).Nodup) :
    (setChannel sp n v).getKey "channels" = some (.obj (Json.setFields cs n v))
  ∧ (Json.setFields cs n v).map Prod.fst = cs.map Prod.fst ++ [n]
  ∧ ((Json.setFields cs n v).map Prod.fst ++ rem).Nodup := by
  obtain ⟨hk, hnd'⟩ := Json.keys_setFields_step cs n v rem hnd
  refine ⟨?_, hk, hnd'⟩
  unfold setChannel
  rw [Json.getKey_updateKey_self sp "channels" _ _ hc]
  rfl

theorem generateChannels_fold_keys (config : ProjectConfig) (es : List Entity) (sp : Json)
    (cs : List (String × Json)) (hc : sp.getKey "channels" = some (.obj cs))
    (hnd : (cs.map Prod.fst ++ es.flatMap entityChannelNames).Nodup) :
    ∃ cs',
      (es.foldl (fun sp e =>
          generateMessages config
            (setChannel
              (setChannel
                (setChannel sp (jsToLowerCase e.name ++ ".created")
                  (channelObj (e.name ++ " created events") ("on" ++ e.name ++ "Created")
                    ("Handle " ++ e.name ++ " created event")
                    ("#/components/messages/" ++ e.name ++ "CreatedMessage")))
                (jsToLowerCase e.name ++ ".updated")
                (channelObj (e.name ++ " updated events") ("on" ++ e.name ++ "Updated")
                  ("Handle " ++ e.name ++ " updated event")
                  ("#/components/messages/" ++ e.name ++ "UpdatedMessage")))
              (jsToLowerCase e.name ++ ".deleted")
              (channelObj (e.name ++ " deleted events") ("on" ++ e.name ++ "Deleted")
                ("Handle " ++ e.name ++ " deleted event")
                ("#/components/messages/" ++ e.name ++ "DeletedMessage"))) e) sp).getKey "channels"
        = some (.obj cs')
      ∧ cs'.map Prod.fst = cs.map Prod.fst ++ es.flatMap entityChannelNames
      ∧ (cs'.map Prod.fst).Nodup := by
  induction es generalizing sp cs with
  | nil =>
      refine ⟨cs, hc, by simp, ?_⟩
      simpa using hnd.sublist (List.sublist_append_left _ _)
  | cons e rest ih =>
      have hnd1 : (cs.map Prod.fst ++ (jsToLowerCase e.name ++ ".created")
          :: ((jsToLowerCase e.name ++ ".updated") :: (jsToLowerCase e.name ++ ".deleted")
            :: rest.flatMap entityChannelNames)).Nodup := by
        simpa [entityChannelNames, List.append_assoc] using hnd
      obtain ⟨hA, hAk, hAnd⟩ := setChannel_keys_step sp cs (jsToLowerCase e.name ++ ".created")
        (channelObj (e.name ++ " created events") ("on" ++ e.name ++ "Created")
          ("Handle " ++ e.name ++ " created event")
          ("#/components/messages/" ++ e.name ++ "CreatedMessage")) _ hc hnd1
      obtain ⟨hB, hBk, hBnd⟩ := setChannel_keys_step _ _ (jsToLowerCase e.name ++ ".updated")
        (channelObj (e.name ++ " updated events") ("on" ++ e.name ++ "Updated")
          ("Handle " ++ e.name ++ " updated event")
          ("#/components/messages/" ++ e.name ++ "UpdatedMessage")) _ hA hAnd
      obtain ⟨hC, hCk, hCnd⟩ := setChannel_keys_step _ _ (jsToLowerCase e.name ++ ".deleted")
        (channelObj (e.name ++ " deleted events") ("on" ++ e.name ++ "Deleted")
          ("Handle " ++ e.name ++ " deleted event")
          ("#/components/messages/" ++ e.name ++ "DeletedMessage")) _ hB hBnd
      simp only [List.foldl_cons]
      have hMsg := getKey_channels_generateMessages config
        (setChannel
          (setChannel
            (setChannel sp (jsToLowerCase e.name ++ ".created")
              (channelObj (e.name ++ " created events") ("on" ++ e.name ++ "Created")
                ("Handle " ++ e.name ++ " created event")
                ("#/components/messages/" ++ e.name ++ "CreatedMessage")))
            (jsToLowerCase e.name ++ ".updated")
            (channelObj (e.name ++ " updated events") ("on" ++ e.name ++ "Updated")
              ("Handle " ++ e.name ++ " updated event")
              ("#/components/messages/" ++ e.name ++ "UpdatedMessage")))
          (jsToLowerCase e.name ++ ".deleted")
          (channelObj (e.name ++ " deleted events") ("on" ++ e.name ++ "Deleted")
            ("Handle " ++ e.name ++ " deleted event")
            ("#/components/messages/" ++ e.name ++ "DeletedMessage"))) e
      rw [hC] at hMsg
      obtain ⟨cs', hgk, hkeys, hnd'⟩ := ih _ _ hMsg hCnd
      refine ⟨cs', hgk, ?_, hnd'⟩
      rw [hkeys, hCk, hBk, hAk]
      simp [entityChannelNames, List.append_assoc]

end AsyncAPIGenerator

end ChannelLemmas

theorem getKey_channels_generateAsyncAPISpec_pre (config : ProjectConfig) (m : DataModel) :
    ∃ sp, AsyncAPIGenerator.generateAsyncAPISpec config m
        = AsyncAPIGenerator.generateMessageTraits
            (AsyncAPIGenerator.generateChannels config m (AsyncAPIGenerator.generateSchemas m sp))
      ∧ sp.getKey "channels" = some (.obj []) := by
  refine ⟨_, rfl, ?_⟩
  by_cases h : strTruthy config.project.author
  · rw [if_pos h, Json.getKey_updateKey_ne _ _ _ _ (by decide)]
    rfl
  · rw [if_neg h]
    rfl

theorem generateChannels_keys (config : ProjectConfig) (m : DataModel) (sp : Json)
    (cs : List (String × Json)) (hc : sp.getKey "channels" = some (.obj cs))
    (hnd : (cs.map Prod.fst ++ m.entities.flatMap entityChannelNames
             ++ ["system.health"]).Nodup) :
    ∃ cs', (AsyncAPIGenerator.generateChannels config m sp).getKey "channels" = some (.obj cs')
      ∧ cs'.map Prod.fst
          = cs.map Prod.fst ++ m.entities.flatMap entityChannelNames ++ ["system.health"] := by
  unfold AsyncAPIGenerator.generateChannels
  obtain ⟨cs1, hgk, hkeys, hnd1⟩ :=
    AsyncAPIGenerator.generateChannels_fold_keys config m.entities sp cs hc
      ((hnd.sublist (List.sublist_append_left _ _)))
  obtain ⟨hS, hSk, _⟩ := AsyncAPIGenerator.setChannel_keys_step _ cs1 "system.health"
    (.obj [("description", .str "System health check events"),
           ("subscribe", .obj
             [("operationId", .str "publishHealthCheck"),
              ("summary", .str "Publish system health status"),
              ("message", AsyncAPIGenerator.msgRef "#/components/messages/HealthCheckMessage")])])
    [] hgk (by rw [hkeys]; simpa [List.append_assoc] using hnd)
  refine ⟨Json.setFields cs1 "system.health"
    (.obj [("description", .str "System health check events"),
           ("subscribe", .obj
             [("operationId", .str "publishHealthCheck"),
              ("summary", .str "Publish system health status"),
              ("message", AsyncAPIGenerator.msgRef "#/components/messages/HealthCheckMessage")])]),
    ?_, ?_⟩
  · unfold AsyncAPIGenerator.generateSystemMessages
    rw [AsyncAPIGenerator.getKey_channels_setMessage]
    exact hS
  · rw [hSk, hkeys]

/-- C9 amended: AsyncAPI generation emits exactly three channels per
entity (`{entity}.created|updated|deleted`, each bound to a generated
message definition) plus one fixed `system.health` channel; for any model
whose channel names do not collide the generated document's channel key
list is exactly the per-entity triples in entity order followed by
`system.health`. -/
theorem C9_channels_amended (config : ProjectConfig) (m : DataModel)
    (hnd : (m.entities.flatMap entityChannelNames ++ ["system.health"]).Nodup) :
    channelKeys (AsyncAPIGenerator.generateAsyncAPISpec config m)
      = m.entities.flatMap entityChannelNames ++ ["system.health"] := by
  obtain ⟨sp, heq, hc⟩ := getKey_channels_generateAsyncAPISpec_pre config m
  rw [heq]
  have hc2 : (AsyncAPIGenerator.generateSchemas m sp).getKey "channels" = some (.obj []) := by
    rw [AsyncAPIGenerator.getKey_channels_generateSchemas]
    exact hc
  obtain ⟨cs', hgk, hkeys⟩ := generateChannels_keys config m _ [] hc2 (by simpa using hnd)
  unfold channelKeys AsyncAPIGenerator.generateMessageTraits
  rw [Json.getKey_updateKey_ne _ _ _ _ (by decide), hgk]
  simpa [Json.keys] using hkeys

/-- C9 counterexample: for the two-entity User/Post model the generated
document's channel key set is not the six entity channels — it also
contains `system.health`. -/
theorem C9_six_channels_counterexample :
    channelKeys (AsyncAPIGenerator.generateAsyncAPISpec testProjectConfig
        DataModelParser.generateSample)
      = ["user.created", "user.updated", "user.deleted",
         "post.created", "post.updated", "post.deleted", "system.health"]
  ∧ "system.health" ∈ channelKeys (AsyncAPIGenerator.generateAsyncAPISpec testProjectConfig
        DataModelParser.generateSample)
  ∧ "system.health" ∉ (["user.created", "user.updated", "user.deleted",
       "post.created", "post.updated", "post.deleted"] : List String) :=
  ⟨rfl, by decide, by decide⟩

/-- Witness for the amended C9 at the concrete User/Post model. -/
theorem C9_channels_amended_witness :
    channelKeys (AsyncAPIGenerator.generateAsyncAPISpec testProjectConfig
        DataModelParser.generateSample)
      = DataModelParser.generateSample.entities.flatMap entityChannelNames
        ++ ["system.health"] :=
  C9_channels_amended testProjectConfig DataModelParser.generateSample (by decide)

section SchemaKeysLemmas

theorem Json.getKey_pushKey_ne (o : Json) (k k' : String) (v : Json) (h : k' ≠ k) :
    (o.pushKey k v).getKey k' = o.getKey k' := by
  unfold Json.pushKey
  exact Json.getKey_updateKey_ne o k k' _ h

namespace OpenAPIGenerator

theorem foldSchemaAddField_props_keys (toProp : DataType → Json) (fields : List EntityField)
    (schema : Json) (ps : List (String × Json))
    (hp : schema.getKey "properties" = some (.obj ps))
    (hnd : (ps.map Prod.fst
        ++ (fields.filter (fun f => f.relationship.isNone)).map EntityField.name).Nodup) :
    ∃ ps', (fields.foldl (schemaAddField toProp) schema).getKey "properties" = some (.obj ps')
      ∧ ps'.map Prod.fst = ps.map Prod.fst
          ++ (fields.filter (fun f => f.relationship.isNone)).map EntityField.name := by
  induction fields generalizing schema ps with
  | nil => exact ⟨ps, hp, by simp⟩
  | cons f rest ih =>
      simp only [List.foldl_cons]
      cases hrel : f.relationship with
      | some r =>
          have hskip : schemaAddField toProp schema f = schema := by
            unfold schemaAddField
            rw [hrel]
          rw [hskip]
          simp only [List.filter_cons, hrel, Option.isNone_some, Bool.false_eq_true, if_false]
          exact ih schema ps hp
            (by simpa [List.filter_cons, hrel] using hnd)
      | none =>
          have hnd' : (ps.map Prod.fst ++ f.name
              :: (rest.filter (fun f => f.relationship.isNone)).map EntityField.name).Nodup := by
            simpa [List.filter_cons, hrel] using hnd
          obtain ⟨hkeys, hnd''⟩ := Json.keys_setFields_step ps f.name (toProp f.dataType) _ hnd'
          have hp1 : (schemaAddField toProp schema f).getKey "properties"
              = some (.obj (Json.setFields ps f.name (toProp f.dataType))) := by
            unfold schemaAddField
            rw [hrel]
            by_cases hreq : f.dataType.required
            · simp only [hreq, if_true]
              rw [Json.getKey_pushKey_ne _ _ _ _ (by decide)]
              exact Json.getKey_updateKey_self _ _ _ _ hp
            · simp only [hreq, if_false]
              exact Json.getKey_updateKey_self _ _ _ _ hp
          obtain ⟨ps', hgk, hkeys'⟩ := ih (schemaAddField toProp schema f)
            (Json.setFields ps f.name (toProp f.dataType)) hp1 hnd''
          refine ⟨ps', hgk, ?_⟩
          rw [hkeys', hkeys]
          simp [List.filter_cons, hrel, List.append_assoc]

theorem foldCreateDtoAddField_props_keys (fields : List EntityField)
    (schema : Json) (ps : List (String × Json))
    (hp : schema.getKey "properties" = some (.obj ps))
    (hnd : (ps.map Prod.fst
        ++ (fields.filter (fun f =>
              !f.isGenerated && !f.isPrimaryKey && f.relationship.isNone)).map
            EntityField.name).Nodup) :
    ∃ ps', (fields.foldl createDtoAddField schema).getKey "properties" = some (.obj ps')
      ∧ ps'.map Prod.fst = ps.map Prod.fst
          ++ (fields.filter (fun f =>
                !f.isGenerated && !f.isPrimaryKey && f.relationship.isNone)).map
              EntityField.name := by
  induction fields generalizing schema ps with
  | nil => exact ⟨ps, hp, by simp⟩
  | cons f rest ih =>
      simp only [List.foldl_cons]
      by_cases hskip : f.isGenerated ∨ f.isPrimaryKey ∨ f.relationship.isSome
      · have hstep : createDtoAddField schema f = schema := by
          unfold createDtoAddField
          rw [if_pos hskip]
        have hfilter : (!f.isGenerated && !f.isPrimaryKey && f.relationship.isNone) = false := by
          rcases hskip with h | h | h
          · simp [h]
          · simp [h]
          · simp [Option.isNone_iff_eq_none, Option.isSome_iff_exists.mp h]
            obtain ⟨r, hr⟩ := Option.isSome_iff_exists.mp h
            simp [hr]
        rw [hstep]
        simp only [List.filter_cons, hfilter, Bool.false_eq_true, if_false]
        exact ih schema ps hp (by simpa [List.filter_cons, hfilter] using hnd)
      · have hfilter : (!f.isGenerated && !f.isPrimaryKey && f.relationship.isNone) = true := by
          push_neg at hskip
          simp [hskip.1, hskip.2.1, Option.isNone_iff_eq_none,
                Option.not_isSome_iff_eq_none.mp (by simpa using hskip.2.2)]
        have hnd' : (ps.map Prod.fst ++ f.name
            :: (rest.filter (fun f =>
                  !f.isGenerated && !f.isPrimaryKey && f.relationship.isNone)).map
                EntityField.name).Nodup := by
          simpa [List.filter_cons, hfilter] using hnd
        obtain ⟨hkeys, hnd''⟩ :=
          Json.keys_setFields_step ps f.name (dataTypeToOpenAPIProperty f.dataType) _ hnd'
        have hp1 : (createDtoAddField schema f).getKey "properties"
            = some (.obj (Json.setFields ps f.name (dataTypeToOpenAPIProperty f.dataType))) := by
          unfold createDtoAddField
          rw [if_neg hskip]
          by_cases hreq : f.dataType.required
          · simp only [hreq, if_true]
            rw [Json.getKey_pushKey_ne _ _ _ _ (by decide)]
            exact Json.getKey_updateKey_self _ _ _ _ hp
          · simp only [hreq, if_false]
            exact Json.getKey_updateKey_self _ _ _ _ hp
        obtain ⟨ps', hgk, hkeys'⟩ := ih (createDtoAddField schema f)
          (Json.setFields ps f.name (dataTypeToOpenAPIProperty f.dataType)) hp1 hnd''
        refine ⟨ps', hgk, ?_⟩
        rw [hkeys', hkeys]
        simp [List.filter_cons, hfilter, List.append_assoc]

end OpenAPIGenerator

end SchemaKeysLemmas

theorem propertyKeys_entityToSchema_aux (toProp : DataType → Json) (e : Entity)
    (schema0 : Json) (hp : schema0.getKey "properties" = some (.obj []))
    (hnd : ((e.fields.filter (fun f => f.relationship.isNone)).map EntityField.name
             ++ (if e.timestamps then ["createdAt", "updatedAt"] else [])).Nodup) :
    propertyKeys
        (let schema := e.fields.foldl (OpenAPIGenerator.schemaAddField toProp) schema0
         if e.timestamps then
           (schema.updateKey "properties" fun props =>
              props.setKey "createdAt" (OpenAPIGenerator.timestampProp "Creation timestamp")).updateKey
             "properties" fun props =>
               props.setKey "updatedAt" (OpenAPIGenerator.timestampProp "Last update timestamp")
         else schema)
      = (e.fields.filter (fun f => f.relationship.isNone)).map EntityField.name
        ++ (if e.timestamps then ["createdAt", "updatedAt"] else []) := by
  obtain ⟨ps', hgk, hkeys⟩ := OpenAPIGenerator.foldSchemaAddField_props_keys toProp e.fields
    schema0 [] hp (hnd.sublist (List.sublist_append_left _ _))
  simp only [List.map_nil, List.nil_append] at hkeys
  cases hts : e.timestamps with
  | false =>
      simp only [hts, Bool.false_eq_true, if_false]
      unfold propertyKeys
      rw [hgk]
      simpa [Json.keys] using hkeys
  | true =>
      simp only [hts, if_true]
      have hnd1 : (ps'.map Prod.fst ++ "createdAt" :: "updatedAt" :: []).Nodup := by
        rw [hkeys]
        simpa [hts] using hnd
      obtain ⟨hk1, hnd2⟩ := Json.keys_setFields_step ps' "createdAt"
        (OpenAPIGenerator.timestampProp "Creation timestamp") _ hnd1
      obtain ⟨hk2, _⟩ := Json.keys_setFields_step _ "updatedAt"
        (OpenAPIGenerator.timestampProp "Last update timestamp") _ hnd2
      have h1 : ((e.fields.foldl (OpenAPIGenerator.schemaAddField toProp) schema0).updateKey
          "properties" fun props =>
            props.setKey "createdAt" (OpenAPIGenerator.timestampProp "Creation timestamp")).getKey
            "properties"
          = some (.obj (Json.setFields ps' "createdAt"
              (OpenAPIGenerator.timestampProp "Creation timestamp"))) :=
        Json.getKey_updateKey_self _ _ _ _ hgk
      have h2 := Json.getKey_updateKey_self _ "properties"
        (fun props => props.setKey "updatedAt" (OpenAPIGenerator.timestampProp "Last update timestamp"))
        _ h1
      unfold propertyKeys
      rw [h2]
      show (Json.setFields (Json.setFields ps' "createdAt" _) "updatedAt" _).map Prod.fst = _
      rw [hk2, hk1, hkeys]
      simp [List.append_assoc]

theorem propertyKeys_entityToSchema (e : Entity)
    (hnd : ((e.fields.filter (fun f => f.relationship.isNone)).map EntityField.name
             ++ (if e.timestamps then ["createdAt", "updatedAt"] else [])).Nodup) :
    propertyKeys (OpenAPIGenerator.entityToSchema e)
      = (e.fields.filter (fun f => f.relationship.isNone)).map EntityField.name
        ++ (if e.timestamps then ["createdAt", "updatedAt"] else []) :=
  propertyKeys_entityToSchema_aux OpenAPIGenerator.dataTypeToOpenAPIProperty e _ rfl hnd

theorem propertyKeys_entityToAsyncAPISchema (e : Entity)
    (hnd : ((e.fields.filter (fun f => f.relationship.isNone)).map EntityField.name
             ++ (if e.timestamps then ["createdAt", "updatedAt"] else [])).Nodup) :
    propertyKeys (AsyncAPIGenerator.entityToAsyncAPISchema e)
      = (e.fields.filter (fun f => f.relationship.isNone)).map EntityField.name
        ++ (if e.timestamps then ["createdAt", "updatedAt"] else []) :=
  propertyKeys_entityToSchema_aux AsyncAPIGenerator.dataTypeToAsyncAPIProperty e _ rfl hnd

theorem propertyKeys_entityToCreateDto (e : Entity)
    (hnd : ((e.fields.filter (fun f =>
        !f.isGenerated && !f.isPrimaryKey && f.relationship.isNone)).map
          EntityField.name).Nodup) :
    propertyKeys (OpenAPIGenerator.entityToCreateDto e)
      = (e.fields.filter (fun f =>
          !f.isGenerated && !f.isPrimaryKey && f.relationship.isNone)).map EntityField.name := by
  obtain ⟨ps', hgk, hkeys⟩ := OpenAPIGenerator.foldCreateDtoAddField_props_keys e.fields
    (Json.obj
      [("type", .str "object"),
       ("description", .str ("Data transfer object for creating " ++ e.name)),
       ("properties", .obj []), ("required", .arr [])])
    [] rfl hnd
  unfold OpenAPIGenerator.entityToCreateDto propertyKeys
  rw [hgk]
  simpa [Json.keys] using hkeys

/-- C10: in the generated OpenAPI entity schema and the AsyncAPI state
schema, the `properties` keys are exactly the names of the entity's
non-relationship fields (plus the implicit timestamps) — every
relationship-carrying field is omitted; and the Create-DTO's `properties`
keys are exactly the names of the fields that are neither generated, nor
primary keys, nor relationships, so those fields never appear as
Create-DTO properties.  (The no-collision hypothesis rules out a second
same-named field re-introducing an omitted key.) -/
theorem C10_schema_field_omission (e : Entity)
    (hnd : ((e.fields.filter (fun f => f.relationship.isNone)).map EntityField.name
             ++ (if e.timestamps then ["createdAt", "updatedAt"] else [])).Nodup) :
    propertyKeys (OpenAPIGenerator.entityToSchema e)
        = (e.fields.filter (fun f => f.relationship.isNone)).map EntityField.name
          ++ (if e.timestamps then ["createdAt", "updatedAt"] else [])
  ∧ propertyKeys (AsyncAPIGenerator.entityToAsyncAPISchema e)
        = (e.fields.filter (fun f => f.relationship.isNone)).map EntityField.name
          ++ (if e.timestamps then ["createdAt", "updatedAt"] else [])
  ∧ propertyKeys (OpenAPIGenerator.entityToCreateDto e)
        = (e.fields.filter (fun f =>
            !f.isGenerated && !f.isPrimaryKey && f.relationship.isNone)).map
            EntityField.name := by
  refine ⟨propertyKeys_entityToSchema e hnd, propertyKeys_entityToAsyncAPISchema e hnd, ?_⟩
  apply propertyKeys_entityToCreateDto
  have hsub : (e.fields.filter (fun f =>
        !f.isGenerated && !f.isPrimaryKey && f.relationship.isNone)).Sublist
      (e.fields.filter (fun f => f.relationship.isNone)) :=
    List.monotone_filter_right _ (fun f hf => by
      simp only [Bool.and_eq_true] at hf
      exact hf.2)
  have hnames : ((e.fields.filter (fun f => f.relationship.isNone)).map EntityField.name).Nodup :=
    hnd.sublist (List.sublist_append_left _ _)
  exact hnames.sublist (hsub.map EntityField.name)

/-- Witness for C10 at the sample model's User entity: the relationship
field `posts` is absent from both property lists, and `id` (generated
primary key) is additionally absent from the Create-DTO. -/
theorem C10_schema_field_omission_witness :
    propertyKeys (OpenAPIGenerator.entityToSchema
        (DataModelParser.generateSample.entities.headD (simpleEntity "X" [])))
      = ["id", "email", "name", "role", "createdAt", "updatedAt"]
  ∧ propertyKeys (OpenAPIGenerator.entityToCreateDto
        (DataModelParser.generateSample.entities.headD (simpleEntity "X" [])))
      = ["email", "name", "role"] := by
  have h := C10_schema_field_omission
    (DataModelParser.generateSample.entities.headD (simpleEntity "X" [])) (by decide)
  exact ⟨h.1, h.2.2⟩
